import Mathlib

/-!
Verification of the tg digest pipeline (`tg_digest_system`).

Shallow embedding of the parts of the code base touched by the claims:
`scripts/database.py` (the relational store), `scripts/ocr_service_unified.py`
and `scripts/ocr.py` (the OCR sub-pipeline), `scripts/telegram_client.py`
(message/media persistence and the bot transport), `scripts/delivery_settings.py`
and `scripts/digest_worker.py` (the worker with its full-pipeline and step
modes).

Python strings are modelled as lists of characters (`PyStr`), message and
media identifiers as `Int` (matching the SQL integer columns), byte strings
as `List Nat`.  External collaborators (Telethon fetch, the LLM, the OCR
backends, the bot HTTP calls) are oracle parameters collected in `Env`.

Python's keyword-argument protocol matters here: several `Database` methods
are called with a `user_id=` keyword they do not accept, which raises
`TypeError` at the call.  We model this faithfully: for each such method the
accepted parameter names are listed verbatim from its `def` line in
`database.py` / `ocr.py`, the keywords passed at the call site are listed
verbatim from the caller, and the call is embedded as raising `TypeError`
whenever a passed keyword is not among the accepted parameters.  Similarly,
`process_channel_step_text` references a name `user_id` that is never bound
in that function nor at module level, which raises `NameError`; we list the
names the function assigns and the module-level names, both read off the
source, and embed the reference as raising `NameError` when the name is in
neither list.
-/

set_option linter.unusedVariables false

namespace TgDigest

/-- Python `str` as a list of characters. -/
abbrev PyStr := List Char

/-- Embed a Lean string literal as a `PyStr`. -/
def pystr (s : String) : PyStr := s.data

/-- Python truthiness of an optional integer (`None` and `0` are falsy). -/
def optIntTruthy : Option Int → Bool
  | none => false
  | some v => v != 0

/-- Python truthiness of an optional string (`None` and `""` are falsy). -/
def optStrTruthy : Option PyStr → Bool
  | none => false
  | some s => s != []

/-- SQL `COALESCE` on two nullable values. -/
def coalesce (a b : Option α) : Option α :=
  match a with
  | some x => some x
  | none => b

/-- Replace the first element satisfying `p` by its image under `f`
(the effect of an SQL `UPDATE ... WHERE <unique key>` on our list model). -/
def updateFirst (p : α → Bool) (f : α → α) : List α → List α
  | [] => []
  | a :: as => if p a then f a :: as else a :: updateFirst p f as

/-- A row of `tg.messages`. -/
structure MessageRow where
  peer_type : PyStr
  peer_id : Int
  msg_id : Int
  dt : Int
  sender_id : Option Int
  sender_name : Option PyStr
  text : Option PyStr
  raw_json : Option PyStr
  user_id : Option Int
deriving Repr, DecidableEq

/-- A row of `tg.media`. -/
structure MediaRow where
  id : Int
  peer_type : PyStr
  peer_id : Int
  msg_id : Int
  media_type : PyStr
  file_name : PyStr
  mime_type : Option PyStr
  size_bytes : Option Int
  sha256 : Option PyStr
  file_data : Option (List Nat)
  local_path : Option PyStr
  user_id : Option Int
deriving Repr, DecidableEq

/-- A row of `tg.media_text` (the OCR results, keyed by `media_id`). -/
structure MediaTextRow where
  media_id : Int
  peer_type : PyStr
  peer_id : Int
  msg_id : Int
  ocr_text : Option PyStr
  ocr_model : PyStr
  ocr_confidence : Option Int
deriving Repr, DecidableEq

/-- A row of `rpt.report_state` (the per-(tenant, source) progress cursor). -/
structure ReportStateRow where
  user_id : Option Int
  peer_type : PyStr
  peer_id : Int
  last_msg_id : Int
deriving Repr, DecidableEq

/-- A row of `rpt.digests`. -/
structure DigestRow where
  id : Int
  peer_type : PyStr
  peer_id : Int
  msg_id_from : Int
  msg_id_to : Int
  digest_raw : PyStr
  digest_llm : Option PyStr
  llm_model : Option PyStr
  llm_tokens_in : Option Int
  llm_tokens_out : Option Int
  user_id : Int
deriving Repr, DecidableEq

/-- A row of `rpt.deliveries`. -/
structure DeliveryRow where
  digest_id : Int
  recipient_id : Option Int
  telegram_id : Int
  delivery_type : PyStr
  status : PyStr
  error_message : Option PyStr
  user_id : Int
deriving Repr, DecidableEq

/-- The relational store (`database.py`): one list of rows per table. -/
structure DB where
  messages : List MessageRow
  media : List MediaRow
  media_text : List MediaTextRow
  report_state : List ReportStateRow
  digests : List DigestRow
  deliveries : List DeliveryRow
deriving Repr, DecidableEq

/-- The empty database. -/
def DB.empty : DB := ⟨[], [], [], [], [], []⟩

namespace Database

/-- `Database.get_last_msg_id` (database.py:375): reads the cursor row,
by `(peer_type, peer_id, user_id)` when `user_id` is truthy, otherwise by
`(peer_type, peer_id)`; returns `0` when absent. -/
def get_last_msg_id (db : DB) (pt : PyStr) (pid : Int) (user_id : Option Int) : Int :=
  if optIntTruthy user_id then
    match db.report_state.find? (fun r => r.user_id == user_id && r.peer_type == pt && r.peer_id == pid) with
    | some r => r.last_msg_id
    | none => 0
  else
    match db.report_state.find? (fun r => r.peer_type == pt && r.peer_id == pid) with
    | some r => r.last_msg_id
    | none => 0

/-- `Database.update_last_msg_id` (database.py:391): an upsert on
`rpt.report_state` whose `ON CONFLICT ... DO UPDATE` clause sets
`last_msg_id = EXCLUDED.last_msg_id` unconditionally (last-writer-wins);
there is no comparison with the stored value anywhere in the method. -/
def update_last_msg_id (db : DB) (pt : PyStr) (pid : Int) (v : Int) (user_id : Option Int) : DB :=
  if optIntTruthy user_id then
    let key := fun (r : ReportStateRow) => r.user_id == user_id && r.peer_type == pt && r.peer_id == pid
    if db.report_state.any key then
      { db with report_state := updateFirst key (fun r => { r with last_msg_id := v }) db.report_state }
    else
      { db with report_state := db.report_state ++ [⟨user_id, pt, pid, v⟩] }
  else
    let key := fun (r : ReportStateRow) => r.peer_type == pt && r.peer_id == pid
    if db.report_state.any key then
      { db with report_state := updateFirst key (fun r => { r with last_msg_id := v }) db.report_state }
    else
      { db with report_state := db.report_state ++ [⟨none, pt, pid, v⟩]}

/-- Key of `tg.messages` as used in `ON CONFLICT (peer_type, peer_id, msg_id)`. -/
def msgKey (pt : PyStr) (pid mid : Int) (r : MessageRow) : Bool :=
  r.peer_type == pt && r.peer_id == pid && r.msg_id == mid

/-- `Database.upsert_message` (database.py:67): resolves a default `user_id`
when the argument is `None`, then inserts or, on conflict of
`(peer_type, peer_id, msg_id)`, updates the row in place
(`user_id = COALESCE(EXCLUDED.user_id, tg.messages.user_id)`). -/
def upsert_message (db : DB) (pt : PyStr) (pid mid dt : Int) (sender_id : Option Int)
    (sender_name : Option PyStr) (text : Option PyStr) (raw_json : Option PyStr)
    (user_id : Option Int) : DB :=
  let uid : Option Int :=
    match user_id with
    | some u => some u
    | none =>
      match db.messages.find? (fun r => r.peer_type == pt && r.peer_id == pid && r.user_id != none) with
      | some r => r.user_id
      | none => some 1
  let upd := fun (r : MessageRow) =>
    { r with dt := dt, sender_id := sender_id, sender_name := sender_name,
             text := text, raw_json := raw_json, user_id := coalesce uid r.user_id }
  if db.messages.any (msgKey pt pid mid) then
    { db with messages := updateFirst (msgKey pt pid mid) upd db.messages }
  else
    { db with messages := db.messages ++ [⟨pt, pid, mid, dt, sender_id, sender_name, text, raw_json, uid⟩] }

/-- `Database.get_max_msg_id` (database.py:136): `COALESCE(MAX(msg_id), 0)`
over the messages of one peer. -/
def get_max_msg_id (db : DB) (pt : PyStr) (pid : Int) : Int :=
  match (db.messages.filter (fun r => r.peer_type == pt && r.peer_id == pid)).map (fun r => r.msg_id) with
  | [] => 0
  | x :: xs => xs.foldl max x

/-- `ORDER BY dt ASC, msg_id ASC` comparison used by `get_messages_range`. -/
def msgOrder (a b : MessageRow) : Bool :=
  a.dt < b.dt || (a.dt == b.dt && a.msg_id ≤ b.msg_id)

/-- `Database.get_messages_range` (database.py:108): messages of a peer in
the half-open window `(msg_id_from, msg_id_to]`, additionally filtered by
`user_id` when that argument is truthy, ordered by `dt` then `msg_id`. -/
def get_messages_range (db : DB) (pt : PyStr) (pid idFrom idTo : Int) (user_id : Option Int) :
    List MessageRow :=
  if optIntTruthy user_id then
    ((db.messages.filter (fun r => r.peer_type == pt && r.peer_id == pid && r.user_id == user_id &&
        idFrom < r.msg_id && r.msg_id ≤ idTo)).mergeSort msgOrder)
  else
    ((db.messages.filter (fun r => r.peer_type == pt && r.peer_id == pid &&
        idFrom < r.msg_id && r.msg_id ≤ idTo)).mergeSort msgOrder)

/-- Key of `tg.media` as used in
`ON CONFLICT (peer_type, peer_id, msg_id, file_name)`. -/
def mediaKey (pt : PyStr) (pid mid : Int) (fn : PyStr) (r : MediaRow) : Bool :=
  r.peer_type == pt && r.peer_id == pid && r.msg_id == mid && r.file_name == fn

/-- `Database.upsert_media` (database.py:151): inserts or updates in place a
media row keyed by `(peer_type, peer_id, msg_id, file_name)` and returns its
id (`RETURNING id`; fresh ids are modelled as max-so-far plus one). -/
def upsert_media (db : DB) (pt : PyStr) (pid mid : Int) (media_type file_name : PyStr)
    (mime_type : Option PyStr) (size_bytes : Option Int) (sha256 : Option PyStr)
    (file_data : Option (List Nat)) (local_path : Option PyStr) : DB × Int :=
  let upd := fun (m : MediaRow) =>
    { m with mime_type := mime_type, size_bytes := size_bytes, sha256 := sha256,
             file_data := file_data, local_path := local_path }
  match db.media.find? (mediaKey pt pid mid file_name) with
  | some r =>
    ({ db with media := updateFirst (mediaKey pt pid mid file_name) upd db.media }, r.id)
  | none =>
    let nid := (db.media.map (fun m => m.id)).foldl max 0 + 1
    ({ db with media := db.media ++
        [⟨nid, pt, pid, mid, media_type, file_name, mime_type, size_bytes, sha256, file_data, local_path, none⟩] },
     nid)

/-- `Database.has_media_for_message` (database.py:181). -/
def has_media_for_message (db : DB) (pt : PyStr) (pid mid : Int) : Bool :=
  db.media.any (fun m => m.peer_type == pt && m.peer_id == pid && m.msg_id == mid)

/-- The `WHERE` clause of `get_media_without_ocr` (database.py:191): a photo
with stored bytes or a path and no `tg.media_text` row yet.  Absence of the
OCR row is the sole membership test of the processing queue. -/
def pendingMediaPred (db : DB) (m : MediaRow) : Bool :=
  m.media_type == pystr ("photo") &&
  !(db.media_text.any (fun t => t.media_id == m.id)) &&
  (m.file_data != none || m.local_path != none)

/-- `Database.get_media_without_ocr` (database.py:191): at most `limit`
pending photos (the `created_at DESC` ordering is the list order here). -/
def get_media_without_ocr (db : DB) (limit : Nat) : List MediaRow :=
  (db.media.filter (pendingMediaPred db)).take limit

/-- `Database.save_ocr_text` (database.py:206): update the `tg.media_text`
row of `media_id` if one exists, else insert it. -/
def save_ocr_text (db : DB) (media_id : Int) (pt : PyStr) (pid mid : Int)
    (ocr_text : PyStr) (ocr_model : PyStr) (ocr_confidence : Option Int) : DB :=
  let upd := fun (t : MediaTextRow) =>
    { t with ocr_text := some ocr_text, ocr_model := ocr_model, ocr_confidence := ocr_confidence }
  if db.media_text.any (fun t => t.media_id == media_id) then
    { db with media_text := updateFirst (fun t => t.media_id == media_id) upd db.media_text }
  else
    { db with media_text := db.media_text ++ [⟨media_id, pt, pid, mid, some ocr_text, ocr_model, ocr_confidence⟩] }

/-- `Database.get_ocr_by_image_hash` (database.py:236): the deduplicating
cache lookup — join `tg.media_text` with `tg.media` on `media_id`, match on
`tg.media.sha256`, require non-null non-empty text, `LIMIT 1`. -/
def get_ocr_by_image_hash (db : DB) (h : PyStr) : Option PyStr :=
  match db.media_text.find? (fun t =>
      db.media.any (fun m => m.id == t.media_id && m.sha256 == some h) &&
      (match t.ocr_text with
       | some s => s != []
       | none => false)) with
  | some t => t.ocr_text
  | none => none

/-- `Database.get_ocr_text_for_range` (database.py:259): non-empty OCR texts
of one peer in the half-open window, ordered by `msg_id`. -/
def get_ocr_text_for_range (db : DB) (pt : PyStr) (pid idFrom idTo : Int) : List MediaTextRow :=
  ((db.media_text.filter (fun t => t.peer_type == pt && t.peer_id == pid &&
      idFrom < t.msg_id && t.msg_id ≤ idTo &&
      (match t.ocr_text with
       | some s => s != []
       | none => false))).mergeSort (fun a b => a.msg_id ≤ b.msg_id))

/-- `Database.save_digest` (database.py:416): resolves a default `user_id`
when the argument is `None`, appends one `rpt.digests` row, returns its id. -/
def save_digest (db : DB) (pt : PyStr) (pid idFrom idTo : Int) (digest_raw : PyStr)
    (digest_llm : Option PyStr) (llm_model : Option PyStr)
    (tokens_in tokens_out : Option Int) (user_id : Option Int) : DB × Int :=
  let uid : Int :=
    match user_id with
    | some u => u
    | none =>
      match db.messages.find? (fun r => r.peer_type == pt && r.peer_id == pid && r.user_id != none) with
      | some r => r.user_id.getD 1
      | none => 1
  let nid := (db.digests.map (fun d => d.id)).foldl max 0 + 1
  ({ db with digests := db.digests ++
      [⟨nid, pt, pid, idFrom, idTo, digest_raw, digest_llm, llm_model, tokens_in, tokens_out, uid⟩] },
   nid)

/-- `Database.save_delivery` (database.py:448): resolves a default `user_id`
from the digest row when the argument is `None`, appends one delivery row. -/
def save_delivery (db : DB) (digest_id telegram_id : Int) (delivery_type status : PyStr)
    (error_message : Option PyStr) (recipient_id : Option Int) (user_id : Option Int) : DB :=
  let uid : Int :=
    match user_id with
    | some u => u
    | none =>
      match db.digests.find? (fun d => d.id == digest_id) with
      | some d => d.user_id
      | none => 1
  { db with deliveries := db.deliveries ++
      [⟨digest_id, recipient_id, telegram_id, delivery_type, status, error_message, uid⟩] }

end Database

/-! ## Python call protocol

Keyword arguments: a Python call raises `TypeError` when it passes a keyword
that is not a parameter of the callee.  For each relevant method the accepted
parameter names are transcribed from its `def` line, and for each relevant
call site the keywords it passes are transcribed from the caller. -/

/-- A Python runtime error relevant to the claims. -/
inductive PyErr
  | typeError
  | nameError
deriving Repr, DecidableEq

/-- A call succeeds only when every passed keyword is an accepted parameter. -/
def acceptsKwargs (params kwargs : List String) : Bool :=
  kwargs.all (fun k => params.contains k)

/-- Parameters of `Database.upsert_media` (database.py:151-162). -/
def upsert_media_params : List String :=
  ["peer_type", "peer_id", "msg_id", "media_type", "file_name", "mime_type",
   "size_bytes", "sha256", "file_data", "local_path"]

/-- Keywords passed by `TelegramService.save_media` to `db.upsert_media`
(telegram_client.py:274-286). -/
def save_media_upsert_media_kwargs : List String :=
  ["peer_type", "peer_id", "msg_id", "media_type", "file_name", "mime_type",
   "size_bytes", "sha256", "local_path", "file_data", "user_id"]

/-- Parameters of `Database.get_media_without_ocr` (database.py:191). -/
def get_media_without_ocr_params : List String := ["limit"]

/-- Keywords passed by `UnifiedOCRService.process_pending_media_async` to
`db.get_media_without_ocr` (ocr_service_unified.py:192). -/
def ppma_get_media_kwargs : List String := ["limit", "user_id"]

/-- Parameters of `Database.save_ocr_text` (database.py:206-214). -/
def save_ocr_text_params : List String :=
  ["media_id", "peer_type", "peer_id", "msg_id", "ocr_text", "ocr_model", "ocr_confidence"]

/-- Keywords passed by `UnifiedOCRService.process_pending_media_async` to
`db.save_ocr_text` (ocr_service_unified.py:214-223). -/
def ppma_save_ocr_text_kwargs : List String :=
  ["media_id", "peer_type", "peer_id", "msg_id", "ocr_text", "ocr_model",
   "ocr_confidence", "user_id"]

/-- Parameters of the legacy `OCRService.process_pending_media` (ocr.py:104). -/
def process_pending_media_params : List String := ["limit"]

/-- Keywords passed by `DigestWorker.process_channel` to
`ocr_service.process_pending_media` (digest_worker.py:206). -/
def worker_process_pending_media_kwargs : List String := ["limit", "user_id"]

/-- Parameters of `UnifiedOCRService.process_pending_media_async`
(ocr_service_unified.py:178). -/
def process_pending_media_async_params : List String := ["limit", "user_id"]

/-- Keywords passed by `DigestWorker.process_channel` to
`ocr_service.process_pending_media_async` (digest_worker.py:203). -/
def worker_process_pending_media_async_kwargs : List String := ["limit", "user_id"]

/-- Keywords passed by `DigestWorker.process_channel_step_ocr` to
`db.get_media_without_ocr` (digest_worker.py:961). -/
def step_ocr_get_media_kwargs : List String := ["limit", "user_id"]

/-! Name resolution: `process_channel_step_text` (digest_worker.py:709-840)
reads a name `user_id` at its cursor-update call (line 765).  Python resolves
a name against the function's assigned locals, then module globals.  Both
lists below are transcribed from digest_worker.py. -/

/-- Names assigned somewhere in the body of `process_channel_step_text`
(its locals, per Python scoping). -/
def step_text_assigned_locals : List String :=
  ["step_name", "last_msg_id", "new_messages", "max_msg_id", "last_message",
   "message", "e", "messages", "ocr_texts", "recent_digests", "previous_content",
   "doc_path", "doc_content", "changes_summary"]

/-- Module-level names of digest_worker.py (imports and definitions). -/
def digest_worker_module_globals : List String :=
  ["asyncio", "logging", "os", "datetime", "timezone", "timedelta", "Path",
   "Optional", "pytz", "Config", "Channel", "load_config", "get_enabled_channels",
   "merge_channels_from_sources", "load_delivery_settings",
   "get_delivery_settings_for_channel", "ChannelDeliverySettings", "Database",
   "TelegramService", "TelegramBot", "OCRService", "UnifiedOCRService",
   "LLMService", "vec_schema_exists", "index_digest_to_rag",
   "index_consolidated_doc_to_rag", "push_to_gitlab", "logger", "_log_ctx",
   "DigestWorker", "main"]

/-- A name reference succeeds when the name is a local or a module global. -/
def nameResolvable (locals : List String) (n : String) : Bool :=
  locals.contains n || digest_worker_module_globals.contains n

/-! ## OCR sub-pipeline (`ocr_service_unified.py`, `ocr.py`) -/

/-- An OCR backend: bytes in, text out, or an exception. -/
def OcrBackend := List Nat → Except PyStr PyStr

/-- The steps of one `UnifiedOCRService.process_image` run, recorded in
invocation order (the cache is the DB lookup; the backends are external). -/
inductive OcrStep
  | cacheLookup
  | primaryCall
  | fallbackCall
deriving Repr, DecidableEq

/-- Result of `UnifiedOCRService.process_image`: the text, the `provider`
metadata entry (empty when no provider produced text), and the trace. -/
structure OcrResult where
  text : PyStr
  provider : PyStr
  trace : List OcrStep
deriving Repr, DecidableEq

/-- External collaborators of the OCR sub-pipeline. -/
structure OcrEnv where
  primary : Option OcrBackend
  fallback : Option OcrBackend
  providerName : PyStr
  hashFn : List Nat → PyStr
  readFile : PyStr → Option (List Nat)

/-- `UnifiedOCRService.process_image` (ocr_service_unified.py:92-168):
hash the bytes, consult the dedup cache first, then the primary (cloud)
backend, then the Tesseract fallback; every backend exception is caught and
control falls through to the next stage; if nothing produced text the result
is the empty string.  `_save_to_cache` (ocr_service_unified.py:170-176) only
logs — it writes nothing, so the store is never modified here. -/
def process_image (db : DB) (env : OcrEnv) (image_bytes : List Nat) : OcrResult :=
  let image_hash := env.hashFn image_bytes
  let cached := Database.get_ocr_by_image_hash db image_hash
  if optStrTruthy cached then
    { text := cached.getD [], provider := pystr ("cache"), trace := [.cacheLookup] }
  else
    let runFallback := fun (tr : List OcrStep) =>
      match env.fallback with
      | some fb =>
        match fb image_bytes with
        | .ok text => { text := text, provider := pystr ("tesseract"), trace := tr ++ [.fallbackCall] : OcrResult }
        | .error _ => { text := [], provider := [], trace := tr ++ [.fallbackCall] : OcrResult }
      | none => { text := [], provider := [], trace := tr : OcrResult }
    match env.primary with
    | some b =>
      match b image_bytes with
      | .ok text =>
        { text := text, provider := env.providerName, trace := [.cacheLookup, .primaryCall] }
      | .error _ => runFallback [.cacheLookup, .primaryCall]
    | none => runFallback [.cacheLookup]

/-- Loop body of `UnifiedOCRService.process_pending_media_async`
(ocr_service_unified.py:195-231): resolve the image bytes, run
`process_image`, and, when text came back, call `db.save_ocr_text` — a call
that passes `user_id=`, a keyword `save_ocr_text` does not accept, so it
raises `TypeError`, which the per-media `except` catches and logs; the
counter is not incremented and the store is unchanged. -/
def ppmaBody (env : OcrEnv) (acc : DB × Nat) (m : MediaRow) : DB × Nat :=
  let db := acc.1
  let processed := acc.2
  let data? : Option (List Nat) :=
    if (match m.file_data with
        | some d => d != []
        | none => false) then m.file_data
    else if optStrTruthy m.local_path then env.readFile (m.local_path.getD [])
    else none
  match data? with
  | none => (db, processed)
  | some image_data =>
    let r := process_image db env image_data
    if r.text != [] then
      if acceptsKwargs save_ocr_text_params ppma_save_ocr_text_kwargs then
        (Database.save_ocr_text db m.id m.peer_type m.peer_id m.msg_id r.text r.provider none,
         processed + 1)
      else (db, processed)
    else (db, processed)

/-- `UnifiedOCRService.process_pending_media_async`
(ocr_service_unified.py:178-233): its first statement calls
`db.get_media_without_ocr(limit=limit, user_id=user_id)`; `user_id` is not a
parameter of `get_media_without_ocr`, so the call raises `TypeError`, which
nothing in this method catches — the method itself raises. -/
def process_pending_media_async (db : DB) (env : OcrEnv) (limit : Nat)
    (_user_id : Option Int) : Except PyErr (DB × Nat) :=
  if acceptsKwargs get_media_without_ocr_params ppma_get_media_kwargs then
    let media_list := Database.get_media_without_ocr db limit
    .ok (media_list.foldl (ppmaBody env) (db, 0))
  else
    .error .typeError

/-- Legacy `OCRService.process_pending_media` (ocr.py:104-150): Tesseract
only, no hash cache, and its `save_ocr_text` call passes no `user_id`, so the
write succeeds.  (The worker never reaches it: its call site passes
`user_id=`, see `worker_process_pending_media_kwargs`.) -/
def ocr_process_pending_media (db : DB) (env : OcrEnv) (limit : Nat) : DB × Nat :=
  let media_list := Database.get_media_without_ocr db limit
  media_list.foldl (fun acc m =>
    let data? : Option (List Nat) :=
      if (match m.file_data with
          | some d => d != []
          | none => false) then m.file_data
      else if optStrTruthy m.local_path then env.readFile (m.local_path.getD [])
      else none
    match data? with
    | none => acc
    | some image_data =>
      let text :=
        match env.fallback with
        | some fb =>
          match fb image_data with
          | .ok t => t
          | .error _ => []
        | none => []
      if text != [] then
        (Database.save_ocr_text acc.1 m.id m.peer_type m.peer_id m.msg_id text
          (pystr ("tesseract-5")) none, acc.2 + 1)
      else acc) (db, 0)

/-! ## Configuration and channels (`config.py`, `delivery_settings.py`) -/

/-- The configuration fields the worker reads (config.py / env). -/
structure Config where
  ocr_enabled : Bool
  gitlab_enabled : Bool
  gitlab_repo_url : PyStr
  gitlab_branch : PyStr
  openai_model : PyStr
  debug : Bool
deriving Repr

/-- A digest recipient (config.py `Recipient`). -/
structure Recipient where
  name : PyStr
  telegram_id : Option Int
  send_text : Bool
  send_file : Bool
deriving Repr, DecidableEq

/-- `ChannelDeliverySettings` (delivery_settings.py:17-27). -/
structure ChannelDeliverySettings where
  importance : PyStr
  send_file : Bool
  send_text : Bool
  text_max_chars : Option Int
  summary_only : Bool
deriving Repr, DecidableEq

/-- `DEFAULT_CHANNEL_SETTINGS` (delivery_settings.py:30-36). -/
def DEFAULT_CHANNEL_SETTINGS : ChannelDeliverySettings :=
  ⟨pystr ("important"), true, true, none, false⟩

/-- `get_delivery_settings_for_channel` (delivery_settings.py:114-121):
cache lookup with the full-delivery default. -/
def get_delivery_settings_for_channel (channel_id : Int)
    (cache : List (Int × ChannelDeliverySettings)) : ChannelDeliverySettings :=
  match cache.find? (fun p => p.1 == channel_id) with
  | some p => p.2
  | none => DEFAULT_CHANNEL_SETTINGS

/-- A configured channel, with the optional web-side `delivery_*` and
multi-tenancy attributes read via `getattr(channel, ..., None)`. -/
structure Channel where
  id : Int
  name : PyStr
  peer_type : PyStr
  user_id : Option Int
  recipients : List Recipient
  consolidated_doc_path : Option PyStr
  delivery_importance : Option PyStr
  delivery_send_file : Bool
  delivery_send_text : Bool
  delivery_text_max_chars : Option Int
  delivery_summary_only : Bool
  user_bot_token : Option PyStr
deriving Repr

/-- Delivery-settings resolution in `_deliver_digest` (digest_worker.py:594-606):
web channels carry `delivery_*` attributes; otherwise the per-cycle cache of
config/digest_delivery.json is consulted with the full-delivery default. -/
def resolveDelivery (ch : Channel) (cache : List (Int × ChannelDeliverySettings)) :
    ChannelDeliverySettings :=
  if ch.delivery_importance != none then
    { importance := ch.delivery_importance.getD [], send_file := ch.delivery_send_file,
      send_text := ch.delivery_send_text, text_max_chars := ch.delivery_text_max_chars,
      summary_only := ch.delivery_summary_only }
  else
    get_delivery_settings_for_channel ch.id cache

/-! ## Telegram service (`telegram_client.py`) -/

/-- Media kind, the outcome of `TelegramService._detect_media_type`
(telegram_client.py:296-313); the isinstance/mime dispatch over Telethon
objects is abstracted into this field of the message. -/
inductive MediaKind
  | photo
  | video
  | voice
  | sticker
  | file
  | other
deriving Repr, DecidableEq

/-- The media-type string stored in `tg.media`. -/
def mediaTypeStr : MediaKind → PyStr
  | .photo => pystr ("photo")
  | .video => pystr ("video")
  | .voice => pystr ("voice")
  | .sticker => pystr ("sticker")
  | .file => pystr ("file")
  | .other => pystr ("other")

/-- A Telethon message as the worker reads it. -/
structure TgMessage where
  id : Int
  dt : Int
  sender_id : Option Int
  sender_name : Option PyStr
  text : PyStr
  hasMedia : Bool
  mediaKind : MediaKind
  fileName : Option PyStr
  mime : Option PyStr
  raw : PyStr
deriving Repr, DecidableEq

/-- External collaborators and filesystem facts for one worker run. -/
structure Env where
  fetched : List TgMessage
  fetchRaises : Bool
  download : TgMessage → Option (List Nat)
  hashFn : List Nat → PyStr
  readFile : PyStr → Option (List Nat)
  primary : Option OcrBackend
  fallback : Option OcrBackend
  providerName : PyStr
  llm : Except PyStr (PyStr × Int × Int)
  docGen : Except PyStr (PyStr × PyStr)
  sendTextOk : Bool
  sendFileOk : Bool
  docExists : Bool
  deliveryCache : List (Int × ChannelDeliverySettings)
  now : PyStr

/-- The OCR collaborators of an `Env`. -/
def Env.ocr (env : Env) : OcrEnv :=
  ⟨env.primary, env.fallback, env.providerName, env.hashFn, env.readFile⟩

/-- `TelegramService.fetch_new_messages` (telegram_client.py:116-157): the
upstream yields messages and the generator forwards those with
`message.id > last_msg_id`. -/
def fetch_new_messages (env : Env) (last_msg_id : Int) : List TgMessage :=
  env.fetched.filter (fun m => last_msg_id < m.id)

/-- `TelegramService.save_message` (telegram_client.py:163-197): upsert the
message row (`text=message.text or ""`,
`raw_json=message.to_dict() if config.debug else None`). -/
def save_message (cfg : Config) (db : DB) (m : TgMessage) (ch : Channel)
    (user_id : Option Int) : DB :=
  Database.upsert_message db ch.peer_type ch.id m.id m.dt m.sender_id m.sender_name
    (some m.text) (if cfg.debug then some m.raw else none) user_id

/-- The file name assembled by `save_media` (telegram_client.py:246-256):
`f"{message.id}"`, with a document attachment name appended when present,
and `.jpg` appended for photos. -/
def mediaFileName (m : TgMessage) (mt : MediaKind) : PyStr :=
  let base := pystr (toString m.id)
  let base :=
    match m.fileName with
    | some fn => base ++ pystr ("_") ++ fn
    | none => base
  if mt == MediaKind.photo then base ++ pystr (".jpg") else base

/-- `TelegramService.save_media` (telegram_client.py:199-294): early `None`
for messages without media or of kind `other`, early `None` for an empty or
failed download; otherwise it calls `db.upsert_media(..., user_id=user_id)`.
`user_id` is not a parameter of `Database.upsert_media`, so that call raises
`TypeError` inside the `try`, whose `except` logs and returns `None`, leaving
the store untouched. -/
def save_media (cfg : Config) (env : Env) (db : DB) (m : TgMessage) (ch : Channel)
    (user_id : Option Int) : DB × Option Int :=
  if !m.hasMedia then (db, none)
  else
    let media_type := m.mediaKind
    if media_type == MediaKind.other then (db, none)
    else
      match env.download m with
      | none => (db, none)
      | some file_data =>
        if acceptsKwargs upsert_media_params save_media_upsert_media_kwargs then
          let fn := mediaFileName m media_type
          let r := Database.upsert_media db ch.peer_type ch.id m.id (mediaTypeStr media_type)
            fn m.mime (some (Int.ofNat file_data.length)) (some (env.hashFn file_data))
            none (some fn)
          (r.1, some r.2)
        else
          (db, none)

/-- `TelegramBot.send_text` length cap (telegram_client.py:337-339): texts
over 4096 characters are cut to 4090 plus a newline and three dots before
the HTTP call. -/
def send_text_payload (text : PyStr) : PyStr :=
  if text.length > 4096 then text.take 4090 ++ pystr ("\n...") else text

/-! ## Python string helpers used by `_build_consolidated_doc_link` -/

/-- Whitespace test for Python `str.strip()`. -/
def isSpaceChar (c : Char) : Bool :=
  c == ' ' || c == '\t' || c == '\n' || c == '\r'

/-- Python `str.strip()`. -/
def pyStrip (s : PyStr) : PyStr :=
  ((s.dropWhile isSpaceChar).reverse.dropWhile isSpaceChar).reverse

/-- Python `str.rstrip(c)` for a single-character argument. -/
def rstripChar (c : Char) (s : PyStr) : PyStr :=
  (s.reverse.dropWhile (fun x => x == c)).reverse

/-- Python `str.strip(c)` for a single-character argument. -/
def stripChar (c : Char) (s : PyStr) : PyStr :=
  rstripChar c (s.dropWhile (fun x => x == c))

/-- Fuel-indexed worker for Python `str.replace`. -/
def replaceSubAux : Nat → PyStr → PyStr → PyStr → PyStr
  | 0, s, _, _ => s
  | _ + 1, [], _, _ => []
  | fuel + 1, c :: rest, pat, rep =>
    if pat != [] && (c :: rest).take pat.length == pat then
      rep ++ replaceSubAux fuel ((c :: rest).drop pat.length) pat rep
    else
      c :: replaceSubAux fuel rest pat rep

/-- Python `str.replace(pat, rep)` (non-overlapping, left to right). -/
def pyReplace (s pat rep : PyStr) : PyStr :=
  replaceSubAux s.length s pat rep

/-! ## Delivery (`DigestWorker._deliver_digest`, digest_worker.py:583-703) -/

/-- `DigestWorker._build_consolidated_doc_link` (digest_worker.py:521-537):
empty when GitLab is off, the repo url is empty or no document is
configured; otherwise the munged web url of the document. -/
def build_consolidated_doc_link (cfg : Config) (ch : Channel) : PyStr :=
  if !cfg.gitlab_enabled || cfg.gitlab_repo_url == [] || !optStrTruthy ch.consolidated_doc_path then
    []
  else
    let url := pyStrip cfg.gitlab_repo_url
    let url := pyReplace url (pystr ("ssh://git@")) (pystr ("https://"))
    let url := pyReplace url (pystr ("git@")) (pystr ("https://"))
    let url := pyReplace url (pystr (":8611")) []
    let url := rstripChar '/' url
    let url := if (pystr (".git")).isSuffixOf url then url.take (url.length - 4) else url
    let branch := if cfg.gitlab_branch != [] then cfg.gitlab_branch else pystr ("main")
    let path := stripChar '/' (ch.consolidated_doc_path.getD [])
    rstripChar '/' url ++ pystr ("/-/blob/") ++ branch ++ pystr ("/") ++ path

/-- The chat header prepended to every delivered digest message
(digest_worker.py:611-614). -/
def chat_header (ch : Channel) : PyStr :=
  pystr ("📊 *Дайджест по чату:* ") ++ ch.name ++ pystr ("\nЧат ID: `") ++
    pystr (toString ch.id) ++ pystr ("`\n\n")

/-- The length-limited digest body (digest_worker.py:616-620): with a
`text_max_chars` cap and `summary_only`, cut to the cap and append the
ellipsis when over it; otherwise cut to 3500 characters with no marker. -/
def deliver_short_text (delivery : ChannelDeliverySettings) (digest_text : PyStr) : PyStr :=
  match delivery.text_max_chars with
  | some m =>
    if delivery.summary_only then
      if (digest_text.length : Int) > m then digest_text.take m.toNat ++ pystr ("…")
      else digest_text
    else
      if digest_text.length > 3500 then digest_text.take 3500 else digest_text
  | none =>
    if digest_text.length > 3500 then digest_text.take 3500 else digest_text

/-- The full text handed to `send_text` for each recipient
(digest_worker.py:607-630): chat header, then the capped body, then — only
when a consolidated-document change summary exists — the changes block and
the document link. -/
def deliver_message_text (cfg : Config) (ch : Channel) (delivery : ChannelDeliverySettings)
    (digest_text changes_summary : PyStr) : PyStr :=
  let short0 := deliver_short_text delivery digest_text
  let short1 :=
    if changes_summary != [] then
      let doc_link := build_consolidated_doc_link cfg ch
      let s := short0 ++ pystr ("\n\n---\n_Изменения в сводном инженерном документе (чат: ") ++
        ch.name ++ pystr ("):_\n") ++ changes_summary
      if doc_link != [] then
        s ++ pystr ("\n\n📄 [Инженерный документ](") ++ doc_link ++ pystr (")")
      else s
    else short0
  chat_header ch ++ short1

/-- `DigestWorker._deliver_digest` (digest_worker.py:583-703): resolve the
delivery settings, build the message text once, then per recipient (skipping
those without a truthy `telegram_id`) attempt text and file delivery
independently — the per-channel and per-recipient flags are conjoined — and
record one delivery row per attempted kind with status sent or failed. -/
def deliver_digest (cfg : Config) (env : Env) (db : DB) (ch : Channel) (digest_id : Int)
    (digest_text : PyStr) (msg_from msg_to : Int) (changes_summary : PyStr) : DB :=
  let delivery := resolveDelivery ch env.deliveryCache
  let message_text := deliver_message_text cfg ch delivery digest_text changes_summary
  let user_id := ch.user_id
  let do_send_text := delivery.send_text
  let do_send_file := delivery.send_file
  ch.recipients.foldl (fun db r =>
    if !optIntTruthy r.telegram_id then db
    else
      let st := do_send_text && r.send_text
      let sf := do_send_file && r.send_file
      let db :=
        if st then
          let success := env.sendTextOk
          Database.save_delivery db digest_id (r.telegram_id.getD 0) (pystr ("text"))
            (if success then pystr ("sent") else pystr ("failed")) none none user_id
        else db
      if sf then
        let success := env.sendFileOk
        Database.save_delivery db digest_id (r.telegram_id.getD 0) (pystr ("file"))
          (if success then pystr ("sent") else pystr ("failed")) none none user_id
      else db) db

/-! ## The worker (`digest_worker.py`) -/

/-- One line of the RAW digest per message (digest_worker.py:438-442):
sender defaults to a marker, text defaults to a marker, is cut to 1500
characters and has newlines replaced by spaces. -/
def rawDigestLine (m : MessageRow) : PyStr :=
  let sender :=
    if optStrTruthy m.sender_name then m.sender_name.getD [] else pystr ("[NO_SENDER]")
  let text0 := if optStrTruthy m.text then m.text.getD [] else pystr ("[EMPTY]")
  let text := (text0.take 1500).map (fun c => if c == '\n' then ' ' else c)
  pystr ("- **") ++ pystr (toString m.dt) ++ pystr ("** `msg_id=") ++
    pystr (toString m.msg_id) ++ pystr ("` **") ++ sender ++ pystr ("**: ") ++ text

/-- `DigestWorker._format_raw_digest` (digest_worker.py:422-444): the header
block followed by one line per message, joined by newlines (the timestamp
comes from the clock oracle; `dt` rendering is abstracted to its number). -/
def format_raw_digest (env : Env) (ch : Channel) (messages : List MessageRow)
    (msg_from msg_to : Int) : PyStr :=
  let lines :=
    [pystr ("# Increment digest"), [],
     pystr ("Channel: ") ++ ch.name ++ pystr (" (ID: ") ++ pystr (toString ch.id) ++ pystr (")"),
     pystr ("Window: msg_id (") ++ pystr (toString msg_from) ++ pystr (", ") ++
       pystr (toString msg_to) ++ pystr ("]"),
     pystr ("Generated: ") ++ env.now,
     pystr ("Messages: ") ++ pystr (toString messages.length), []] ++
    messages.map rawDigestLine
  List.intercalate (pystr ("\n")) lines

/-- The per-message body of the collection loop of
`DigestWorker.process_channel` (digest_worker.py:150-173): save the message
(with the channel's `user_id`); when it has media and OCR is enabled, check
for an existing media row — with the user filter when `user_id is not None` —
and call `save_media` when there is none; count it and track the running
maximum id. -/
def ingestOne (cfg : Config) (env : Env) (ch : Channel) (user_id : Option Int)
    (acc : DB × Nat × Int) (m : TgMessage) : DB × Nat × Int :=
  let db := save_message cfg acc.1 m ch user_id
  let db :=
    if m.hasMedia && cfg.ocr_enabled then
      let has_media :=
        match user_id with
        | some u =>
          db.media.any (fun r => r.peer_type == ch.peer_type && r.peer_id == ch.id &&
            r.msg_id == m.id && r.user_id == some u)
        | none => Database.has_media_for_message db ch.peer_type ch.id m.id
      if !has_media then (save_media cfg env db m ch user_id).1 else db
    else db
  (db, acc.2.1 + 1, max acc.2.2 m.id)

/-- Which OCR service `DigestWorker.__init__` (digest_worker.py:57-74)
attached: the unified service, the legacy Tesseract one, or none when
`ocr_enabled` is false. -/
inductive OcrServiceKind
  | unified
  | tesseract
  | disabled
deriving Repr, DecidableEq

/-- Step 3 of `process_channel` (digest_worker.py:199-207): the unified
branch calls `process_pending_media_async(limit=50, user_id=user_id)` —
accepted keywords, but the method then raises `TypeError` internally (see
`process_pending_media_async`); the legacy branch calls
`process_pending_media(limit=50, user_id=user_id)`, and `user_id` is not a
parameter of the legacy method, so that call raises `TypeError` directly.
Neither raise is caught inside `process_channel`. -/
def ocrPhase (db : DB) (env : Env) (kind : OcrServiceKind) (user_id : Option Int) :
    Except PyErr DB :=
  match kind with
  | .disabled => .ok db
  | .unified =>
    match process_pending_media_async db env.ocr 50 user_id with
    | .ok r => .ok r.1
    | .error e => .error e
  | .tesseract =>
    if acceptsKwargs process_pending_media_params worker_process_pending_media_kwargs then
      .ok (ocr_process_pending_media db env.ocr 50).1
    else .error .typeError

/-- Outcome of one `process_channel` run: the store as left behind, the
returned digest id (`none` is both the error return and the nothing-new
return), the uncaught exception if one escaped, and how many times the
summarization collaborator was invoked. -/
structure PCResult where
  db : DB
  ret : Option Int
  raised : Option PyErr
  llmCalls : Nat
deriving Repr

/-- `DigestWorker.process_channel` (digest_worker.py:128-308), the full
pipeline for one source: read the cursor, ingest the fetched messages (a
fetch exception after some messages keeps their rows and returns `None`),
short-circuit when nothing is new unless a consolidated document must be
created, run the OCR phase, build the window data, call the LLM (a failure
is caught and leaves `llm_digest = None`), save the digest row, advance the
cursor to the window maximum, update the consolidated document (failures
caught), and deliver only when the LLM text is truthy and messages are new.
GitLab file writes and RAG indexing touch no table and are omitted. -/
def process_channel (cfg : Config) (env : Env) (db : DB) (ch : Channel)
    (kind : OcrServiceKind) : PCResult :=
  let user_id := ch.user_id
  let last := Database.get_last_msg_id db ch.peer_type ch.id user_id
  let step := (fetch_new_messages env last).foldl (ingestOne cfg env ch user_id) (db, 0, last)
  let db1 := step.1
  let new_messages := step.2.1
  let max_msg_id := step.2.2
  if env.fetchRaises then
    { db := db1, ret := none, raised := none, llmCalls := 0 }
  else
  let should_create_doc := optStrTruthy ch.consolidated_doc_path && !env.docExists
  if new_messages == 0 && !should_create_doc then
    { db := db1, ret := none, raised := none, llmCalls := 0 }
  else
  match ocrPhase db1 env kind user_id with
  | .error e => { db := db1, ret := none, raised := some e, llmCalls := 0 }
  | .ok db2 =>
    let messages := Database.get_messages_range db2 ch.peer_type ch.id last max_msg_id none
    let raw_digest := format_raw_digest env ch messages last max_msg_id
    let llm_digest : Option PyStr :=
      match env.llm with
      | .ok r => some r.1
      | .error _ => none
    let tokens_in : Int := match env.llm with
      | .ok r => r.2.1
      | .error _ => 0
    let tokens_out : Int := match env.llm with
      | .ok r => r.2.2
      | .error _ => 0
    let sd := Database.save_digest db2 ch.peer_type ch.id last max_msg_id raw_digest
      llm_digest (if optStrTruthy llm_digest then some cfg.openai_model else none)
      (some tokens_in) (some tokens_out) user_id
    let digest_id := sd.2
    let db3 := Database.update_last_msg_id sd.1 ch.peer_type ch.id max_msg_id user_id
    let should_update_doc := optStrTruthy ch.consolidated_doc_path &&
      (new_messages > 0 || !env.docExists)
    let changes_summary : PyStr :=
      if should_update_doc then
        match env.docGen with
        | .ok r => r.2
        | .error _ => []
      else []
    let db4 :=
      if optStrTruthy llm_digest && new_messages > 0 then
        deliver_digest cfg env db3 ch digest_id (llm_digest.getD []) last max_msg_id
          changes_summary
      else db3
    { db := db4, ret := some digest_id, raised := none, llmCalls := 1 }

/-- The step notification sent by `_notify_step` (digest_worker.py:98-126),
reduced to its three distinguishable shapes: explicit nothing-new, failure
with a reason, success. -/
inductive StepNotify
  | noMessages
  | stepFailure
  | stepSuccess
deriving Repr, DecidableEq

/-- Outcome of one `process_channel_step_digest` run. -/
structure SDResult where
  db : DB
  ret : Option Int
  notify : StepNotify
  llmCalls : Nat
deriving Repr

/-- `DigestWorker.process_channel_step_digest` (digest_worker.py:1045-1138):
window from the stored cursor and the stored maximum id; `max <= last` is
the explicit nothing-new outcome before any generator work; an LLM failure
is reported as a step failure before the digest row is saved and before the
cursor moves; on success the row is saved, the cursor advances, the document
is updated (failures caught) and truthy text is delivered. -/
def process_channel_step_digest (cfg : Config) (env : Env) (db : DB) (ch : Channel) :
    SDResult :=
  let last := Database.get_last_msg_id db ch.peer_type ch.id none
  let mx := Database.get_max_msg_id db ch.peer_type ch.id
  if mx ≤ last then
    { db := db, ret := none, notify := .noMessages, llmCalls := 0 }
  else
    let messages := Database.get_messages_range db ch.peer_type ch.id last mx none
    let user_id := ch.user_id
    let new_messages := messages.length
    let raw_digest := format_raw_digest env ch messages last mx
    match env.llm with
    | .error _ => { db := db, ret := none, notify := .stepFailure, llmCalls := 1 }
    | .ok r =>
      let sd := Database.save_digest db ch.peer_type ch.id last mx raw_digest
        (some r.1) (some cfg.openai_model) (some r.2.1) (some r.2.2) none
      let db2 := Database.update_last_msg_id sd.1 ch.peer_type ch.id mx user_id
      let changes_summary : PyStr :=
        if optStrTruthy ch.consolidated_doc_path && new_messages > 0 then
          match env.docGen with
          | .ok g => g.2
          | .error _ => []
        else []
      let db3 :=
        if optStrTruthy (some r.1) then
          deliver_digest cfg env db2 ch sd.2 r.1 last mx changes_summary
        else db2
      { db := db3, ret := some sd.2, notify := .stepSuccess, llmCalls := 1 }

/-- Outcome of one `process_channel_step_text` run (`docWritten` records
whether the consolidated document file was rewritten). -/
structure STResult where
  db : DB
  notify : StepNotify
  docWritten : Bool
deriving Repr

/-- `DigestWorker.process_channel_step_text` (digest_worker.py:709-840):
read the cursor, save the fetched messages (a fetch exception is reported as
a step failure), report nothing-new when no message arrived; otherwise the
cursor update at line 765 evaluates the name `user_id`, which is neither
assigned in this function nor a module global, so Python raises `NameError`
before the database is touched; the outer handler catches it and reports a
step failure — the consolidated-document block is never reached.  The
branch under `nameResolvable` embeds the rest of the function as written. -/
def process_channel_step_text (cfg : Config) (env : Env) (db : DB) (ch : Channel) :
    STResult :=
  let last := Database.get_last_msg_id db ch.peer_type ch.id none
  let step := (fetch_new_messages env last).foldl
    (fun acc m => (save_message cfg acc.1 m ch none, acc.2.1 + 1, max acc.2.2 m.id))
    (db, 0, last)
  let db1 := step.1
  let new_messages := step.2.1
  let max_msg_id := step.2.2
  if env.fetchRaises then
    { db := db1, notify := .stepFailure, docWritten := false }
  else if new_messages == 0 then
    { db := db1, notify := .noMessages, docWritten := false }
  else if nameResolvable step_text_assigned_locals "user_id" then
    let db2 := Database.update_last_msg_id db1 ch.peer_type ch.id max_msg_id none
    if optStrTruthy ch.consolidated_doc_path then
      match env.docGen with
      | .error _ => { db := db2, notify := .stepFailure, docWritten := false }
      | .ok _ => { db := db2, notify := .stepSuccess, docWritten := true }
    else
      { db := db2, notify := .stepSuccess, docWritten := false }
  else
    { db := db1, notify := .stepFailure, docWritten := false }

/-! ## Helper lemmas -/

theorem updateFirst_length (p : α → Bool) (f : α → α) (l : List α) :
    (updateFirst p f l).length = l.length := by
  induction l with
  | nil => rfl
  | cons a as ih =>
    simp only [updateFirst]
    split <;> simp [ih]

theorem find?_updateFirst (p : α → Bool) (f : α → α) (l : List α)
    (hp : ∀ a, p a = true → p (f a) = true) :
    (updateFirst p f l).find? p = (l.find? p).map f := by
  induction l with
  | nil => rfl
  | cons a as ih =>
    simp only [updateFirst]
    by_cases h : p a = true
    · simp [h, List.find?_cons, hp a h]
    · have h' : p a = false := by
        simpa using h
      simp [h', List.find?_cons, ih]

theorem find?_append_of_none {p : α → Bool} {l₁ : List α} (l₂ : List α)
    (h : l₁.find? p = none) : (l₁ ++ l₂).find? p = l₂.find? p := by
  induction l₁ with
  | nil => rfl
  | cons a as ih =>
    rw [List.find?_cons] at h
    rcases h' : p a with _ | _
    · rw [List.cons_append, List.find?_cons, h']
      exact ih (by simpa [h'] using h)
    · simp [h'] at h

theorem countP_updateFirst (p : α → Bool) (f : α → α) (l : List α)
    (hp : ∀ a, p a = true → p (f a) = true) :
    (updateFirst p f l).countP p = l.countP p := by
  induction l with
  | nil => rfl
  | cons a as ih =>
    simp only [updateFirst]
    by_cases h : p a = true
    · simp [List.countP_cons, h, hp a h]
    · have h' : p a = false := by
        simpa using h
      simp [List.countP_cons, h', ih]

theorem any_eq_false_find?_none {p : α → Bool} {l : List α} (h : l.any p = false) :
    l.find? p = none := by
  rw [List.find?_eq_none]
  intro x hx
  rcases List.any_eq_false.mp h x hx with h'
  simp [h']

/-- The cursor key of a `ReportStateRow` as used by the no-tenant branch. -/
def cursorKey (pt : PyStr) (pid : Int) (r : ReportStateRow) : Bool :=
  r.peer_type == pt && r.peer_id == pid

/-- The cursor key of a `ReportStateRow` as used by the tenant branch. -/
def cursorKeyUser (u : Option Int) (pt : PyStr) (pid : Int) (r : ReportStateRow) : Bool :=
  r.user_id == u && r.peer_type == pt && r.peer_id == pid

theorem get_last_update (db : DB) (pt : PyStr) (pid v : Int) (u : Option Int) :
    Database.get_last_msg_id (Database.update_last_msg_id db pt pid v u) pt pid u = v := by
  unfold Database.get_last_msg_id Database.update_last_msg_id
  by_cases hu : optIntTruthy u = true
  · simp only [hu, if_true]
    by_cases h : db.report_state.any (fun r => r.user_id == u && r.peer_type == pt && r.peer_id == pid) = true
    · simp only [h, if_true]
      rw [find?_updateFirst]
      · rcases hf : db.report_state.find? (fun r => r.user_id == u && r.peer_type == pt && r.peer_id == pid) with _ | r
        · rcases List.any_eq_true.mp h with ⟨x, hx, hpx⟩
          have := List.find?_eq_none.mp hf x hx
          simp [hpx] at this
        · simp [hf]
      · intro a ha
        simpa using ha
    · have h' : db.report_state.any (fun r => r.user_id == u && r.peer_type == pt && r.peer_id == pid) = false := by
        simpa using h
      simp only [h', if_neg, Bool.false_eq_true, if_false]
      rw [find?_append_of_none _ (any_eq_false_find?_none h')]
      simp
  · have hu' : optIntTruthy u = false := by
      simpa using hu
    simp only [hu', Bool.false_eq_true, if_false]
    by_cases h : db.report_state.any (fun r => r.peer_type == pt && r.peer_id == pid) = true
    · simp only [h, if_true]
      rw [find?_updateFirst]
      · rcases hf : db.report_state.find? (fun r => r.peer_type == pt && r.peer_id == pid) with _ | r
        · rcases List.any_eq_true.mp h with ⟨x, hx, hpx⟩
          have := List.find?_eq_none.mp hf x hx
          simp [hpx] at this
        · simp [hf]
      · intro a ha
        simpa using ha
    · have h' : db.report_state.any (fun r => r.peer_type == pt && r.peer_id == pid) = false := by
        simpa using h
      simp only [h', Bool.false_eq_true, if_false]
      rw [find?_append_of_none _ (any_eq_false_find?_none h')]
      simp

/-! ## Claim C1 -/

/-- A store whose cursor for source (`"channel"`, 42) stands at 5. -/
def c1_db : DB :=
  { DB.empty with report_state := [⟨none, pystr ("channel"), 42, 5⟩] }

/-- C1, counterexample: with the stored cursor at 5, calling
`update_last_msg_id` with the strictly lower value 3 does not fail — it is a
total function with no `InvariantViolation` path — and afterwards the stored
cursor reads 3: the cursor has regressed. -/
theorem c1_cursor_regresses_counterexample :
    Database.get_last_msg_id c1_db (pystr ("channel")) 42 none = 5 ∧
    Database.get_last_msg_id
      (Database.update_last_msg_id c1_db (pystr ("channel")) 42 3 none)
      (pystr ("channel")) 42 none = 3 := by
  constructor <;> rfl

/-- C1, amended: `Database.update_last_msg_id` is an unconditional
last-writer-wins upsert — after any call the stored cursor for the key
equals the new value, even when that value is strictly below the previously
stored cursor; no comparison is made and no `InvariantViolation` exists. -/
theorem c1_cursor_last_writer_wins (db : DB) (pt : PyStr) (pid v : Int) (u : Option Int) :
    Database.get_last_msg_id (Database.update_last_msg_id db pt pid v u) pt pid u = v :=
  get_last_update db pt pid v u

/-! ## Closed facts about the Python call protocol -/

theorem ppma_get_media_kwargs_rejected :
    acceptsKwargs get_media_without_ocr_params ppma_get_media_kwargs = false := by decide

theorem worker_ppm_kwargs_rejected :
    acceptsKwargs process_pending_media_params worker_process_pending_media_kwargs = false := by
  decide

theorem save_media_kwargs_rejected :
    acceptsKwargs upsert_media_params save_media_upsert_media_kwargs = false := by decide

theorem ppma_save_ocr_kwargs_rejected :
    acceptsKwargs save_ocr_text_params ppma_save_ocr_text_kwargs = false := by decide

theorem step_text_user_id_unresolvable :
    nameResolvable step_text_assigned_locals "user_id" = false := by decide

/-! ## Frame lemmas -/

@[simp]
theorem update_last_msg_id_messages (db : DB) (pt : PyStr) (pid v : Int) (u : Option Int) :
    (Database.update_last_msg_id db pt pid v u).messages = db.messages := by
  unfold Database.update_last_msg_id
  split <;> dsimp only <;> split <;> rfl

@[simp]
theorem update_last_msg_id_media (db : DB) (pt : PyStr) (pid v : Int) (u : Option Int) :
    (Database.update_last_msg_id db pt pid v u).media = db.media := by
  unfold Database.update_last_msg_id
  split <;> dsimp only <;> split <;> rfl

@[simp]
theorem update_last_msg_id_media_text (db : DB) (pt : PyStr) (pid v : Int) (u : Option Int) :
    (Database.update_last_msg_id db pt pid v u).media_text = db.media_text := by
  unfold Database.update_last_msg_id
  split <;> dsimp only <;> split <;> rfl

@[simp]
theorem update_last_msg_id_digests (db : DB) (pt : PyStr) (pid v : Int) (u : Option Int) :
    (Database.update_last_msg_id db pt pid v u).digests = db.digests := by
  unfold Database.update_last_msg_id
  split <;> dsimp only <;> split <;> rfl

@[simp]
theorem update_last_msg_id_deliveries (db : DB) (pt : PyStr) (pid v : Int) (u : Option Int) :
    (Database.update_last_msg_id db pt pid v u).deliveries = db.deliveries := by
  unfold Database.update_last_msg_id
  split <;> dsimp only <;> split <;> rfl

@[simp]
theorem save_digest_messages (db : DB) (pt : PyStr) (pid f t : Int) (raw : PyStr)
    (llm : Option PyStr) (model : Option PyStr) (tin tout : Option Int) (u : Option Int) :
    (Database.save_digest db pt pid f t raw llm model tin tout u).1.messages = db.messages := rfl

@[simp]
theorem save_digest_media (db : DB) (pt : PyStr) (pid f t : Int) (raw : PyStr)
    (llm : Option PyStr) (model : Option PyStr) (tin tout : Option Int) (u : Option Int) :
    (Database.save_digest db pt pid f t raw llm model tin tout u).1.media = db.media := rfl

@[simp]
theorem save_digest_media_text (db : DB) (pt : PyStr) (pid f t : Int) (raw : PyStr)
    (llm : Option PyStr) (model : Option PyStr) (tin tout : Option Int) (u : Option Int) :
    (Database.save_digest db pt pid f t raw llm model tin tout u).1.media_text = db.media_text := rfl

@[simp]
theorem save_digest_report_state (db : DB) (pt : PyStr) (pid f t : Int) (raw : PyStr)
    (llm : Option PyStr) (model : Option PyStr) (tin tout : Option Int) (u : Option Int) :
    (Database.save_digest db pt pid f t raw llm model tin tout u).1.report_state = db.report_state :=
  rfl

@[simp]
theorem save_digest_deliveries (db : DB) (pt : PyStr) (pid f t : Int) (raw : PyStr)
    (llm : Option PyStr) (model : Option PyStr) (tin tout : Option Int) (u : Option Int) :
    (Database.save_digest db pt pid f t raw llm model tin tout u).1.deliveries = db.deliveries := rfl

theorem save_digest_digests_llm (db : DB) (pt : PyStr) (pid f t : Int) (raw : PyStr)
    (llm : Option PyStr) (model : Option PyStr) (tin tout : Option Int) (u : Option Int) :
    (Database.save_digest db pt pid f t raw llm model tin tout u).1.digests.map
      (fun d => d.digest_llm) = db.digests.map (fun d => d.digest_llm) ++ [llm] := by
  simp [Database.save_digest]

@[simp]
theorem upsert_message_media (db : DB) (pt : PyStr) (pid mid dt : Int) (sid : Option Int)
    (sn tx rj : Option PyStr) (uid : Option Int) :
    (Database.upsert_message db pt pid mid dt sid sn tx rj uid).media = db.media := by
  unfold Database.upsert_message
  dsimp only
  split <;> rfl

@[simp]
theorem upsert_message_media_text (db : DB) (pt : PyStr) (pid mid dt : Int) (sid : Option Int)
    (sn tx rj : Option PyStr) (uid : Option Int) :
    (Database.upsert_message db pt pid mid dt sid sn tx rj uid).media_text = db.media_text := by
  unfold Database.upsert_message
  dsimp only
  split <;> rfl

@[simp]
theorem upsert_message_report_state (db : DB) (pt : PyStr) (pid mid dt : Int) (sid : Option Int)
    (sn tx rj : Option PyStr) (uid : Option Int) :
    (Database.upsert_message db pt pid mid dt sid sn tx rj uid).report_state =
      db.report_state := by
  unfold Database.upsert_message
  dsimp only
  split <;> rfl

@[simp]
theorem upsert_message_digests (db : DB) (pt : PyStr) (pid mid dt : Int) (sid : Option Int)
    (sn tx rj : Option PyStr) (uid : Option Int) :
    (Database.upsert_message db pt pid mid dt sid sn tx rj uid).digests = db.digests := by
  unfold Database.upsert_message
  dsimp only
  split <;> rfl

@[simp]
theorem upsert_message_deliveries (db : DB) (pt : PyStr) (pid mid dt : Int) (sid : Option Int)
    (sn tx rj : Option PyStr) (uid : Option Int) :
    (Database.upsert_message db pt pid mid dt sid sn tx rj uid).deliveries = db.deliveries := by
  unfold Database.upsert_message
  dsimp only
  split <;> rfl

/-- `save_media` never changes the store and always returns `None`: every
path either returns early or reaches the `upsert_media(..., user_id=...)`
call, which raises `TypeError` (caught, logged, `None`). -/
theorem save_media_no_row (cfg : Config) (env : Env) (db : DB) (m : TgMessage)
    (ch : Channel) (u : Option Int) : save_media cfg env db m ch u = (db, none) := by
  unfold save_media
  by_cases hm : m.hasMedia = true
  · rw [hm]
    by_cases hk : (m.mediaKind == MediaKind.other) = true
    · simp [hk]
    · simp only [Bool.not_true, Bool.false_eq_true, if_false, hk]
      cases hd : env.download m with
      | none => simp [hd]
      | some bs => simp [hd, save_media_kwargs_rejected]
  · have hm' : m.hasMedia = false := by
      simpa using hm
    simp [hm']

/-- `ingestOne` only writes message rows: every other table is untouched. -/
theorem ingestOne_frame (cfg : Config) (env : Env) (ch : Channel) (u : Option Int)
    (acc : DB × Nat × Int) (m : TgMessage) :
    (ingestOne cfg env ch u acc m).1.media = acc.1.media ∧
    (ingestOne cfg env ch u acc m).1.media_text = acc.1.media_text ∧
    (ingestOne cfg env ch u acc m).1.report_state = acc.1.report_state ∧
    (ingestOne cfg env ch u acc m).1.digests = acc.1.digests ∧
    (ingestOne cfg env ch u acc m).1.deliveries = acc.1.deliveries := by
  unfold ingestOne
  dsimp only
  split
  · split <;> simp [save_message, save_media_no_row]
  · simp [save_message]

/-- The collection loop of `process_channel` only writes message rows. -/
theorem ingest_fold_frame (cfg : Config) (env : Env) (ch : Channel) (u : Option Int)
    (msgs : List TgMessage) (acc : DB × Nat × Int) :
    (msgs.foldl (ingestOne cfg env ch u) acc).1.media = acc.1.media ∧
    (msgs.foldl (ingestOne cfg env ch u) acc).1.media_text = acc.1.media_text ∧
    (msgs.foldl (ingestOne cfg env ch u) acc).1.report_state = acc.1.report_state ∧
    (msgs.foldl (ingestOne cfg env ch u) acc).1.digests = acc.1.digests ∧
    (msgs.foldl (ingestOne cfg env ch u) acc).1.deliveries = acc.1.deliveries := by
  induction msgs generalizing acc with
  | nil => exact ⟨rfl, rfl, rfl, rfl, rfl⟩
  | cons m ms ih =>
    rw [List.foldl_cons]
    rcases ih (ingestOne cfg env ch u acc m) with ⟨h1, h2, h3, h4, h5⟩
    rcases ingestOne_frame cfg env ch u acc m with ⟨g1, g2, g3, g4, g5⟩
    exact ⟨h1.trans g1, h2.trans g2, h3.trans g3, h4.trans g4, h5.trans g5⟩

/-- The running maximum of the collection loop is the plain maximum of the
seen message ids. -/
theorem ingest_fold_max (cfg : Config) (env : Env) (ch : Channel) (u : Option Int)
    (msgs : List TgMessage) (acc : DB × Nat × Int) :
    (msgs.foldl (ingestOne cfg env ch u) acc).2.2 =
      msgs.foldl (fun a m => max a m.id) acc.2.2 := by
  induction msgs generalizing acc with
  | nil => rfl
  | cons m ms ih =>
    rw [List.foldl_cons, List.foldl_cons]
    exact ih (ingestOne cfg env ch u acc m)

/-- The counter of the collection loop counts every yielded message. -/
theorem ingest_fold_count (cfg : Config) (env : Env) (ch : Channel) (u : Option Int)
    (msgs : List TgMessage) (acc : DB × Nat × Int) :
    (msgs.foldl (ingestOne cfg env ch u) acc).2.1 = acc.2.1 + msgs.length := by
  induction msgs generalizing acc with
  | nil => rfl
  | cons m ms ih =>
    rw [List.foldl_cons]
    rw [ih (ingestOne cfg env ch u acc m)]
    have : (ingestOne cfg env ch u acc m).2.1 = acc.2.1 + 1 := rfl
    rw [this]
    simp [List.length_cons]
    omega

/-! ## Concrete fixtures shared by witnesses and counterexamples -/

/-- A configuration with OCR and GitLab off. -/
def cfg0 : Config :=
  { ocr_enabled := false, gitlab_enabled := false, gitlab_repo_url := [],
    gitlab_branch := [], openai_model := pystr ("gpt"), debug := false }

/-- A configuration with OCR on. -/
def cfg_ocr : Config := { cfg0 with ocr_enabled := true }

/-- A quiet environment: nothing fetched, failing LLM, no OCR backends. -/
def env0 : Env :=
  { fetched := [], fetchRaises := false, download := fun _ => none,
    hashFn := fun _ => [], readFile := fun _ => none, primary := none,
    fallback := none, providerName := [], llm := Except.error [],
    docGen := Except.error [], sendTextOk := true, sendFileOk := true,
    docExists := true, deliveryCache := [], now := [] }

/-- A plain channel: no tenant, no recipients, no consolidated document. -/
def ch0 : Channel :=
  { id := 42, name := pystr ("c"), peer_type := pystr ("channel"), user_id := none,
    recipients := [], consolidated_doc_path := none, delivery_importance := none,
    delivery_send_file := true, delivery_send_text := true,
    delivery_text_max_chars := none, delivery_summary_only := false,
    user_bot_token := none }

/-- A photo-carrying upstream message with id 7. -/
def msg_photo : TgMessage :=
  { id := 7, dt := 100, sender_id := some 5, sender_name := some (pystr ("s")),
    text := pystr ("hi"), hasMedia := true, mediaKind := .photo, fileName := none,
    mime := some (pystr ("image/jpeg")), raw := [] }

/-! ## Claim C4 -/

/-- C4: for any message that carries media, `save_media` leaves the store
untouched and returns `None`: either an early return fires, or the
`db.upsert_media(..., user_id=...)` call is reached and raises `TypeError`
(`"user_id"` is not among `upsert_media`'s parameters), which the `except`
converts into `None`. -/
theorem c4_save_media_returns_none (cfg : Config) (env : Env) (db : DB) (m : TgMessage)
    (ch : Channel) (u : Option Int) (h : m.hasMedia = true) :
    save_media cfg env db m ch u = (db, none) ∧
    acceptsKwargs upsert_media_params save_media_upsert_media_kwargs = false := by
  exact ⟨save_media_no_row cfg env db m ch u, by decide⟩

/-- C4, witness: a concrete photo message; `save_media` returns `None` and
the store is unchanged. -/
theorem c4_save_media_returns_none_witness :
    msg_photo.hasMedia = true ∧
    save_media cfg0 { env0 with download := fun _ => some [1, 2] } DB.empty msg_photo ch0
      (some 7) = (DB.empty, none) :=
  ⟨rfl, (c4_save_media_returns_none cfg0 { env0 with download := fun _ => some [1, 2] }
    DB.empty msg_photo ch0 (some 7) rfl).1⟩

/-! ## Claim C5 -/

theorem countP_updateFirst_msg (pt : PyStr) (pid mid : Int) (f : MessageRow → MessageRow)
    (hf : ∀ r, (f r).peer_type = r.peer_type ∧ (f r).peer_id = r.peer_id ∧
      (f r).msg_id = r.msg_id) (l : List MessageRow) :
    (updateFirst (Database.msgKey pt pid mid) f l).countP (Database.msgKey pt pid mid) =
      l.countP (Database.msgKey pt pid mid) := by
  apply countP_updateFirst
  intro a ha
  rcases hf a with ⟨h1, h2, h3⟩
  simpa [Database.msgKey, h1, h2, h3] using ha

/-- C5: (1) whenever the store holds at most one row for a message key,
`upsert_message` of that key leaves exactly one row for it, and an upsert
hitting an existing key changes no row count at all (update in place);
(2) a full `process_channel` run in which the upstream yields nothing new
leaves the message rows, the media rows, and the observable cursor of the
source unchanged, for every OCR-service shape. -/
theorem c5_reingest_updates_in_place :
    (∀ (db : DB) (pt : PyStr) (pid mid dt : Int) (sid : Option Int)
        (sn tx rj : Option PyStr) (uid : Option Int),
      db.messages.countP (Database.msgKey pt pid mid) ≤ 1 →
        (Database.upsert_message db pt pid mid dt sid sn tx rj uid).messages.countP
            (Database.msgKey pt pid mid) = 1 ∧
        (db.messages.any (Database.msgKey pt pid mid) = true →
          (Database.upsert_message db pt pid mid dt sid sn tx rj uid).messages.length =
            db.messages.length)) ∧
    (∀ (cfg : Config) (env : Env) (db : DB) (ch : Channel) (kind : OcrServiceKind),
      env.fetched = [] →
        (process_channel cfg env db ch kind).db.messages = db.messages ∧
        (process_channel cfg env db ch kind).db.media = db.media ∧
        Database.get_last_msg_id (process_channel cfg env db ch kind).db ch.peer_type ch.id
            ch.user_id =
          Database.get_last_msg_id db ch.peer_type ch.id ch.user_id) := by
  constructor
  · intro db pt pid mid dt sid sn tx rj uid hle
    unfold Database.upsert_message
    by_cases h : db.messages.any (Database.msgKey pt pid mid) = true
    · rcases List.any_eq_true.mp h with ⟨x, hx, hpx⟩
      have hpos : 0 < db.messages.countP (Database.msgKey pt pid mid) :=
        List.countP_pos_iff.mpr ⟨x, hx, hpx⟩
      have hone : db.messages.countP (Database.msgKey pt pid mid) = 1 := by omega
      refine ⟨?_, ?_⟩
      · simp only [h, if_true]
        rw [countP_updateFirst_msg]
        · exact hone
        · intro r
          exact ⟨rfl, rfl, rfl⟩
      · intro _
        simp only [h, if_true]
        exact updateFirst_length _ _ _
    · have h' : db.messages.any (Database.msgKey pt pid mid) = false := by
        simpa using h
      have hzero : db.messages.countP (Database.msgKey pt pid mid) = 0 := by
        rw [List.countP_eq_zero]
        intro a ha
        rcases List.any_eq_false.mp h' a ha with hna
        simp [hna]
      refine ⟨?_, ?_⟩
      · simp only [h', Bool.false_eq_true, if_false]
        rw [List.countP_append, hzero]
        simp [Database.msgKey, List.countP_cons]
      · intro hcontra
        rw [hcontra] at h'
        cases h'
  · intro cfg env db ch kind hf
    have hfetch : ∀ v, fetch_new_messages env v = [] := by
      intro v
      simp [fetch_new_messages, hf]
    unfold process_channel
    simp only [hfetch, List.foldl_nil]
    cases hr : env.fetchRaises
    · simp only [Bool.false_eq_true, if_false]
      by_cases hd : (optStrTruthy ch.consolidated_doc_path && !env.docExists) = true
      · simp only [hd, Bool.not_true, Bool.and_false, beq_self_eq_true, Bool.true_and,
          Bool.false_eq_true, if_false]
        cases kind
        · -- unified: the OCR phase raises TypeError and the run aborts
          simp [ocrPhase, process_pending_media_async, ppma_get_media_kwargs_rejected]
        · -- tesseract: the OCR phase raises TypeError at the call site
          simp [ocrPhase, worker_ppm_kwargs_rejected]
        · -- ocr disabled: the empty window still reaches the generator,
          -- but only the digest table and the cursor row are written,
          -- and the cursor is rewritten with its own previous value
          simp [ocrPhase, get_last_update]
      · simp only [Bool.not_eq_true] at hd
        simp [hd]
    · simp

/-- C5, witness: re-ingesting msg 7 over a store already holding a row for
it keeps exactly one row for the key and the same row count, and an
empty-fetch full run over that store changes neither messages, media nor
cursor. -/
theorem c5_reingest_updates_in_place_witness :
    ((Database.upsert_message
        { DB.empty with messages := [⟨pystr ("channel"), 42, 7, 50, none, none,
          some (pystr ("old")), none, some 1⟩] }
        (pystr ("channel")) 42 7 60 (some 5) (some (pystr ("s"))) (some (pystr ("new")))
        none (some 1)).messages.countP (Database.msgKey (pystr ("channel")) 42 7) = 1) ∧
    (process_channel cfg0 env0
        { DB.empty with messages := [⟨pystr ("channel"), 42, 7, 50, none, none,
          some (pystr ("old")), none, some 1⟩] } ch0 .disabled).db.messages =
      [⟨pystr ("channel"), 42, 7, 50, none, none, some (pystr ("old")), none, some 1⟩] := by
  constructor
  · exact (c5_reingest_updates_in_place.1
      { DB.empty with messages := [⟨pystr ("channel"), 42, 7, 50, none, none,
        some (pystr ("old")), none, some 1⟩] }
      (pystr ("channel")) 42 7 60 (some 5) (some (pystr ("s"))) (some (pystr ("new")))
      none (some 1) (by decide)).1
  · exact (c5_reingest_updates_in_place.2 cfg0 env0
      { DB.empty with messages := [⟨pystr ("channel"), 42, 7, 50, none, none,
        some (pystr ("old")), none, some 1⟩] } ch0 .disabled rfl).1

/-! ## Claim C2 -/

/-- A plain text message with id 7, no media. -/
def msg1 : TgMessage :=
  { id := 7, dt := 100, sender_id := some 5, sender_name := some (pystr ("s")),
    text := pystr ("hi"), hasMedia := false, mediaKind := .other, fileName := none,
    mime := none, raw := [] }

/-- An environment yielding one new message whose LLM call fails. -/
def c2_env : Env := { env0 with fetched := [msg1] }

/-- C2, counterexample: in the full pipeline (`process_channel`, OCR off),
when the summarization call fails, a digest row IS created — with null
generated text — and the cursor IS advanced to the window maximum 7, so the
window will not be retried; the claim says no digest row is created and the
window is not marked generated. -/
theorem c2_digest_row_on_llm_failure_counterexample :
    (process_channel cfg0 c2_env DB.empty ch0 .disabled).raised = none ∧
    (process_channel cfg0 c2_env DB.empty ch0 .disabled).db.digests.map
      (fun d => d.digest_llm) = [none] ∧
    Database.get_last_msg_id (process_channel cfg0 c2_env DB.empty ch0 .disabled).db
      (pystr ("channel")) 42 none = 7 := by
  refine ⟨?_, ?_, ?_⟩ <;> decide

/-- C2, amended: a summarization failure leaves no digest row and an
unchanged store only in step-digest mode, where the step is reported as a
failure (or as nothing-new when the window was empty) and the unchanged
cursor makes the next step-digest run retry the same — possibly larger —
window from the database (the step re-fetches nothing: it takes no upstream
input).  In the full pipeline, by contrast, the failure is caught, a digest
row with null generated text is still saved, and the cursor still advances
to the maximum fetched id, so that window is never retried. -/
theorem c2_llm_failure_retry_semantics :
    (∀ (cfg : Config) (env : Env) (db : DB) (ch : Channel) (e : PyStr),
      env.llm = Except.error e →
        (process_channel_step_digest cfg env db ch).db = db ∧
        (process_channel_step_digest cfg env db ch).ret = none ∧
        ((process_channel_step_digest cfg env db ch).notify = .noMessages ∨
         (process_channel_step_digest cfg env db ch).notify = .stepFailure)) ∧
    (∀ (cfg : Config) (env : Env) (db : DB) (ch : Channel) (e : PyStr),
      env.llm = Except.error e →
      env.fetchRaises = false →
      fetch_new_messages env (Database.get_last_msg_id db ch.peer_type ch.id ch.user_id) ≠
          [] →
        (process_channel cfg env db ch .disabled).db.digests.map (fun d => d.digest_llm) =
          db.digests.map (fun d => d.digest_llm) ++ [none] ∧
        Database.get_last_msg_id (process_channel cfg env db ch .disabled).db ch.peer_type
            ch.id ch.user_id =
          (fetch_new_messages env
              (Database.get_last_msg_id db ch.peer_type ch.id ch.user_id)).foldl
            (fun a m => max a m.id)
            (Database.get_last_msg_id db ch.peer_type ch.id ch.user_id)) := by
  constructor
  · intro cfg env db ch e hllm
    unfold process_channel_step_digest
    by_cases hw : Database.get_max_msg_id db ch.peer_type ch.id ≤
        Database.get_last_msg_id db ch.peer_type ch.id none
    · simp [hw]
    · simp [hw, hllm]
  · intro cfg env db ch e hllm hfr hne
    unfold process_channel
    rw [hfr]
    have hcount := ingest_fold_count cfg env ch ch.user_id
      (fetch_new_messages env (Database.get_last_msg_id db ch.peer_type ch.id ch.user_id))
      (db, 0, Database.get_last_msg_id db ch.peer_type ch.id ch.user_id)
    have hlen : (fetch_new_messages env
        (Database.get_last_msg_id db ch.peer_type ch.id ch.user_id)).length ≠ 0 := by
      simpa [List.length_eq_zero] using hne
    have hframe := ingest_fold_frame cfg env ch ch.user_id
      (fetch_new_messages env (Database.get_last_msg_id db ch.peer_type ch.id ch.user_id))
      (db, 0, Database.get_last_msg_id db ch.peer_type ch.id ch.user_id)
    have hmax := ingest_fold_max cfg env ch ch.user_id
      (fetch_new_messages env (Database.get_last_msg_id db ch.peer_type ch.id ch.user_id))
      (db, 0, Database.get_last_msg_id db ch.peer_type ch.id ch.user_id)
    simp only [Bool.false_eq_true, if_false, hcount, Nat.zero_add, hllm, ocrPhase]
    have hbeq : ((fetch_new_messages env
        (Database.get_last_msg_id db ch.peer_type ch.id ch.user_id)).length == 0) = false := by
      simpa using hlen
    simp only [hbeq, Bool.false_and, Bool.false_eq_true, if_false]
    constructor
    · simp only [optStrTruthy, Bool.false_and, Bool.false_eq_true, if_false,
        update_last_msg_id_digests]
      rw [save_digest_digests_llm]
      rw [hframe.2.2.2.1]
    · simp only [optStrTruthy, Bool.false_and, Bool.false_eq_true, if_false]
      rw [get_last_update]
      exact hmax

/-- C2, witness: step-digest with a failing LLM over a store with one
unprocessed message leaves the store unchanged, returns no digest id and
notifies a failure; the full pipeline on the same failing LLM appends a
null-text digest row and moves the cursor to 7. -/
theorem c2_llm_failure_retry_semantics_witness :
    ((process_channel_step_digest cfg0 env0
        { DB.empty with messages := [⟨pystr ("channel"), 42, 7, 50, none, none,
          some (pystr ("old")), none, some 1⟩] } ch0).db =
      { DB.empty with messages := [⟨pystr ("channel"), 42, 7, 50, none, none,
        some (pystr ("old")), none, some 1⟩] }) ∧
    ((process_channel cfg0 c2_env DB.empty ch0 .disabled).db.digests.map
      (fun d => d.digest_llm) = [none]) := by
  constructor
  · exact ((c2_llm_failure_retry_semantics.1 cfg0 env0
      { DB.empty with messages := [⟨pystr ("channel"), 42, 7, 50, none, none,
        some (pystr ("old")), none, some 1⟩] } ch0 [] rfl)).1
  · have h := (c2_llm_failure_retry_semantics.2 cfg0 c2_env DB.empty ch0 [] rfl rfl
      (by decide)).1
    simpa using h

/-! ## Claim C3 -/

/-- An environment with one new photo message, a working download, and a
summarizer that would succeed. -/
def c3_env : Env :=
  { env0 with fetched := [msg_photo], download := fun _ => some [9], llm := Except.ok (pystr ("T"), 1, 1) }

/-- C3, behaviour at the failing input: with OCR enabled and one new photo
message, the OCR phase raises `TypeError` — the unified service passes
`user_id=` to `get_media_without_ocr`, the legacy service is itself called
with `user_id=` — and nothing catches it inside `process_channel`: the run
aborts with the exception before the generator, no digest row exists and the
cursor has not moved, for either OCR service.  The claim (and the spec's
propagation policy) say an OCR-phase failure must never prevent digest
generation. -/
theorem c3_ocr_phase_aborts_pipeline :
    acceptsKwargs get_media_without_ocr_params ppma_get_media_kwargs = false ∧
    acceptsKwargs process_pending_media_params worker_process_pending_media_kwargs = false ∧
    (process_channel cfg_ocr c3_env DB.empty ch0 .unified).raised = some .typeError ∧
    (process_channel cfg_ocr c3_env DB.empty ch0 .unified).llmCalls = 0 ∧
    (process_channel cfg_ocr c3_env DB.empty ch0 .unified).db.digests = [] ∧
    Database.get_last_msg_id (process_channel cfg_ocr c3_env DB.empty ch0 .unified).db
      (pystr ("channel")) 42 none = 0 ∧
    (process_channel cfg_ocr c3_env DB.empty ch0 .tesseract).raised = some .typeError ∧
    (process_channel cfg_ocr c3_env DB.empty ch0 .tesseract).llmCalls = 0 := by
  refine ⟨?_, ?_, ?_, ?_, ?_, ?_, ?_, ?_⟩ <;> decide

/-! ## Claim C8 -/

/-- A channel with a configured consolidated document. -/
def ch8 : Channel := { ch0 with consolidated_doc_path := some (pystr ("docs/x.md")) }

/-- Empty upstream, consolidated document file missing, healthy LLM. -/
def env8 : Env :=
  { env0 with docExists := false, llm := Except.ok (pystr ("T"), 1, 2), docGen := Except.ok (pystr ("D"), pystr ("chg")) }

/-- A store whose cursor for the source already stands at 100. -/
def db8 : DB :=
  { DB.empty with report_state := [⟨none, pystr ("channel"), 42, 100⟩] }

/-- C8, counterexample: cursor 100, nothing new upstream (window maximum
100 = cursor, an empty window) — but the consolidated document is configured
and its file does not exist yet, so the full pipeline does NOT short-circuit:
the summarizer is invoked once and a digest row for the empty window
(100, 100] is created.  The claim says an empty window always short-circuits
without invoking the generator or creating a digest row. -/
theorem c8_empty_window_still_generates_counterexample :
    (process_channel cfg0 env8 db8 ch8 .disabled).llmCalls = 1 ∧
    (process_channel cfg0 env8 db8 ch8 .disabled).db.digests.map
      (fun d => (d.msg_id_from, d.msg_id_to)) = [(100, 100)] ∧
    (process_channel cfg0 env8 db8 ch8 .disabled).ret = some 1 := by
  refine ⟨?_, ?_, ?_⟩ <;> decide

/-- C8, amended: with an empty window, step-digest (`max <= last`) always
short-circuits before the generator — the store is unchanged, no digest id
is returned, no delivery happens and the outcome is the distinguishable
nothing-new notification; the full pipeline with nothing fetched
short-circuits the same way provided no consolidated document is configured
or its file already exists — otherwise (first-run document creation) the
generator is invoked on the empty window and a digest row is created, as the
counterexample shows. -/
theorem c8_empty_window_short_circuit :
    (∀ (cfg : Config) (env : Env) (db : DB) (ch : Channel),
      Database.get_max_msg_id db ch.peer_type ch.id ≤
          Database.get_last_msg_id db ch.peer_type ch.id none →
        (process_channel_step_digest cfg env db ch).db = db ∧
        (process_channel_step_digest cfg env db ch).ret = none ∧
        (process_channel_step_digest cfg env db ch).notify = .noMessages ∧
        (process_channel_step_digest cfg env db ch).llmCalls = 0) ∧
    (∀ (cfg : Config) (env : Env) (db : DB) (ch : Channel) (kind : OcrServiceKind),
      env.fetched = [] →
      env.fetchRaises = false →
      (optStrTruthy ch.consolidated_doc_path = false ∨ env.docExists = true) →
        (process_channel cfg env db ch kind).db = db ∧
        (process_channel cfg env db ch kind).ret = none ∧
        (process_channel cfg env db ch kind).raised = none ∧
        (process_channel cfg env db ch kind).llmCalls = 0) := by
  constructor
  · intro cfg env db ch hw
    unfold process_channel_step_digest
    simp [hw]
  · intro cfg env db ch kind hf hfr hdoc
    have hfetch : ∀ v, fetch_new_messages env v = [] := by
      intro v
      simp [fetch_new_messages, hf]
    have hsc : (optStrTruthy ch.consolidated_doc_path && !env.docExists) = false := by
      rcases hdoc with h | h <;> simp [h]
    unfold process_channel
    simp [hfetch, hfr, hsc]

/-- C8, witness: with cursor 100 and nothing new, step-digest on a store
whose maximum persisted id is 100 returns the nothing-new outcome unchanged,
and the full pipeline with no configured document also returns unchanged
without invoking the generator. -/
theorem c8_empty_window_short_circuit_witness :
    ((process_channel_step_digest cfg0 env0 db8 ch0).db = db8 ∧
     (process_channel_step_digest cfg0 env0 db8 ch0).notify = .noMessages) ∧
    ((process_channel cfg0 env0 db8 ch0 .disabled).db = db8 ∧
     (process_channel cfg0 env0 db8 ch0 .disabled).llmCalls = 0) := by
  constructor
  · have h := c8_empty_window_short_circuit.1 cfg0 env0 db8 ch0 (by decide)
    exact ⟨h.1, h.2.2.1⟩
  · have h := c8_empty_window_short_circuit.2 cfg0 env0 db8 ch0 .disabled rfl rfl
      (Or.inl (by decide))
    exact ⟨h.1, h.2.2.2⟩

/-! ## Claims C6 and C7: the OCR sub-pipeline -/

/-- An OCR environment whose cloud backend succeeds with the text `"text"`. -/
def oenv6 : OcrEnv :=
  { primary := some (fun _ => Except.ok (pystr ("text"))), fallback := none,
    providerName := pystr ("easyocr"), hashFn := fun b => pystr (toString b),
    readFile := fun _ => none }

/-- One stored pending photo whose bytes are `[9]` (hash `"[9]"`). -/
def media6 : MediaRow :=
  { id := 1, peer_type := pystr ("channel"), peer_id := 42, msg_id := 7,
    media_type := pystr ("photo"), file_name := pystr ("7.jpg"), mime_type := none,
    size_bytes := some 1, sha256 := some (pystr ("[9]")), file_data := some [9],
    local_path := none, user_id := none }

/-- A store holding that photo and no OCR text. -/
def db6 : DB := { DB.empty with media := [media6] }

/-- C6, behaviour at the failing input: the unified pipeline can never
populate the dedup cache — `process_pending_media_async` raises `TypeError`
at its `get_media_without_ocr(limit=..., user_id=...)` call, its per-media
body leaves the store unchanged even after a successful extraction (the
`save_ocr_text(..., user_id=...)` call raises `TypeError`, and
`_save_to_cache` writes nothing) — so repeated processing of identical bytes
invokes the cloud backend each time instead of at most once: two runs over
the same store yield two `primaryCall` backend invocations. -/
theorem c6_dedup_cache_never_stores :
    acceptsKwargs get_media_without_ocr_params ppma_get_media_kwargs = false ∧
    acceptsKwargs save_ocr_text_params ppma_save_ocr_text_kwargs = false ∧
    process_pending_media_async db6 oenv6 10 (some 1) = Except.error .typeError ∧
    ppmaBody oenv6 (db6, 0) media6 = (db6, 0) ∧
    (process_image db6 oenv6 [9]).text = pystr ("text") ∧
    (process_image db6 oenv6 [9]).trace = [.cacheLookup, .primaryCall] ∧
    (process_image db6 oenv6 [9]).trace.count .primaryCall +
      (process_image db6 oenv6 [9]).trace.count .primaryCall = 2 := by
  refine ⟨by decide, by decide, rfl, by decide, by decide, by decide, by decide⟩

/-- C7: in `process_image`, (1) the cache lookup always comes first;
(2) a truthy cached text is returned with zero backend invocations;
(3) the invocation order is always a front portion of
cache → primary → fallback; (4) backend exceptions are caught — when the
primary and the fallback both raise and the cache is empty the call returns
empty text having tried both, and propagates nothing; (5) the pipeline loop
body writes no Extracted Text row in any case, so a failed asset keeps its
place in the pending queue (absence of the row being the sole queue signal). -/
theorem c7_backend_priority_and_retry (db : DB) (env : OcrEnv) (bytes : List Nat) :
    ((process_image db env bytes).trace.head? = some .cacheLookup) ∧
    (∀ t, Database.get_ocr_by_image_hash db (env.hashFn bytes) = some t → t ≠ [] →
      process_image db env bytes = ⟨t, pystr ("cache"), [.cacheLookup]⟩) ∧
    ((process_image db env bytes).trace = [.cacheLookup] ∨
     (process_image db env bytes).trace = [.cacheLookup, .primaryCall] ∨
     (process_image db env bytes).trace = [.cacheLookup, .fallbackCall] ∨
     (process_image db env bytes).trace = [.cacheLookup, .primaryCall, .fallbackCall]) ∧
    (∀ p fb ep efb, env.primary = some p → p bytes = Except.error ep →
      env.fallback = some fb → fb bytes = Except.error efb →
      Database.get_ocr_by_image_hash db (env.hashFn bytes) = none →
      process_image db env bytes = ⟨[], [], [.cacheLookup, .primaryCall, .fallbackCall]⟩) ∧
    (∀ (acc : DB × Nat) (m : MediaRow), (ppmaBody env acc m).1 = acc.1) := by
  have hbody : ∀ (acc : DB × Nat) (m : MediaRow), (ppmaBody env acc m).1 = acc.1 := by
    intro acc m
    unfold ppmaBody
    dsimp only
    split
    · rfl
    · split
      · rw [ppma_save_ocr_kwargs_rejected]
        simp
      · rfl
  refine ⟨?_, ?_, ?_, ?_, hbody⟩
  · unfold process_image
    dsimp only
    split
    · rfl
    · split
      · split
        · rfl
        · split
          · split <;> rfl
          · rfl
      · split
        · split <;> rfl
        · rfl
  · intro t ht hne
    have htr : optStrTruthy (Database.get_ocr_by_image_hash db (env.hashFn bytes)) = true := by
      rw [ht]
      simpa [optStrTruthy] using hne
    simp only [process_image, htr, if_true, ht]
    have hx : optStrTruthy (some t) = true := by
      simpa [optStrTruthy] using hne
    rw [hx]
    simp
  · unfold process_image
    dsimp only
    split
    · exact Or.inl rfl
    · split
      · split
        · exact Or.inr (Or.inl rfl)
        · split
          · split <;> exact Or.inr (Or.inr (Or.inr rfl))
          · exact Or.inr (Or.inl rfl)
      · split
        · split <;> exact Or.inr (Or.inr (Or.inl rfl))
        · exact Or.inl rfl
  · intro p fb ep efb hp hpb hfb hfbb hc
    have htr : optStrTruthy (Database.get_ocr_by_image_hash db (env.hashFn bytes)) = false := by
      rw [hc]
      rfl
    simp [process_image, htr, hp, hpb, hfb, hfbb]

/-- C7, witness: with a cached text for the hash, the result is the cache
with no backend call; with empty cache and both backends raising, the result
is empty text after trying cache, primary, fallback in order, and the loop
body leaves the store — hence the pending queue — unchanged. -/
theorem c7_backend_priority_and_retry_witness :
    (process_image
        { db6 with media_text := [⟨1, pystr ("channel"), 42, 7, some (pystr ("c")),
          pystr ("easyocr"), none⟩] } oenv6 [9] =
      ⟨pystr ("c"), pystr ("cache"), [.cacheLookup]⟩) ∧
    (process_image db6
        { oenv6 with primary := some (fun _ => Except.error (pystr ("boom"))), fallback := some (fun _ => Except.error (pystr ("down"))) } [9] =
      ⟨[], [], [.cacheLookup, .primaryCall, .fallbackCall]⟩) ∧
    (ppmaBody oenv6 (db6, 0) media6).1 = db6 := by
  refine ⟨?_, ?_, ?_⟩
  · exact (c7_backend_priority_and_retry
      { db6 with media_text := [⟨1, pystr ("channel"), 42, 7, some (pystr ("c")),
        pystr ("easyocr"), none⟩] } oenv6 [9]).2.1 (pystr ("c")) (by decide) (by decide)
  · exact (c7_backend_priority_and_retry db6
      { oenv6 with primary := some (fun _ => Except.error (pystr ("boom"))), fallback := some (fun _ => Except.error (pystr ("down"))) } [9]).2.2.2.1
      (fun _ => Except.error (pystr ("boom"))) (fun _ => Except.error (pystr ("down")))
      (pystr ("boom")) (pystr ("down")) rfl rfl rfl rfl (by decide)
  · exact (c7_backend_priority_and_retry db6 oenv6 [9]).2.2.2.2 (db6, 0) media6

/-! ## Claim C9 -/

/-- The informational delivery policy of the scenario: summary only, text
capped at 500, no file. -/
def delivery9 : ChannelDeliverySettings :=
  ⟨pystr ("informational"), false, true, some 500, true⟩

/-- A generated digest of 2000 characters. -/
def digest2000 : PyStr := List.replicate 2000 'a'

/-- What `send_text` actually receives for that digest under that policy
(no consolidated-document changes block). -/
def delivered9 : PyStr := send_text_payload (deliver_message_text cfg0 ch0 delivery9 digest2000 [])

/-- The scenario recipient. -/
def r9 : Recipient := ⟨pystr ("r"), some 99, true, true⟩

/-- A channel carrying the informational web-side delivery attributes and
one recipient. -/
def ch9 : Channel := { ch0 with recipients := [r9], delivery_importance := some (pystr ("informational")), delivery_send_file := false, delivery_send_text := true, delivery_text_max_chars := some 500, delivery_summary_only := true }

/-- The truncation equation of `deliver_short_text` under `summary_only`
with an exceeded non-negative cap. -/
theorem short_text_truncates (ds : ChannelDeliverySettings) (digest : PyStr) (m : Int)
    (hs : ds.summary_only = true) (hc : ds.text_max_chars = some m)
    (hlen : (digest.length : Int) > m) :
    deliver_short_text ds digest = digest.take m.toNat ++ pystr ("…") := by
  unfold deliver_short_text
  rw [hc, hs]
  simp only [if_true]
  rw [if_pos hlen]

/-- With no changes block, the delivered message is exactly the chat header
followed by the capped body. -/
theorem message_text_no_changes (cfg : Config) (ch : Channel)
    (ds : ChannelDeliverySettings) (digest : PyStr) :
    deliver_message_text cfg ch ds digest [] =
      chat_header ch ++ deliver_short_text ds digest := by
  unfold deliver_message_text
  simp

/-- C9, counterexample: with `summaryOnly` and `textMaxChars = 500`, a
2000-character digest is delivered as MORE than 501 characters — the message
prepends the chat header (channel name and id) to the 501-character
truncated body — though it does end with the ellipsis marker.  The claim
says the delivered text is at most 501 characters. -/
theorem c9_delivered_longer_than_cap_counterexample :
    delivery9.summary_only = true ∧ delivery9.text_max_chars = some 500 ∧
    digest2000.length = 2000 ∧ 501 < delivered9.length ∧
    delivered9.length = (chat_header ch0).length + 501 ∧
    delivered9.getLast? = some '…' := by
  have hlen2000 : digest2000.length = 2000 := by
    rw [show digest2000 = List.replicate 2000 'a' from rfl, List.length_replicate]
  have hshort : deliver_short_text delivery9 digest2000 =
      digest2000.take 500 ++ ['…'] := by
    have h := short_text_truncates delivery9 digest2000 500 rfl rfl
      (by rw [hlen2000]; norm_num)
    simpa using h
  have hmsg : deliver_message_text cfg0 ch0 delivery9 digest2000 [] =
      chat_header ch0 ++ (digest2000.take 500 ++ ['…']) := by
    rw [message_text_no_changes, hshort]
  have hslen : (digest2000.take 500 ++ ['…']).length = 501 := by
    rw [List.length_append, List.length_take, hlen2000]
    norm_num
  have hh : (chat_header ch0).length = 38 := by decide
  have hmlen : (deliver_message_text cfg0 ch0 delivery9 digest2000 []).length = 539 := by
    rw [hmsg, List.length_append, hh, hslen]
  have hpay : delivered9 = deliver_message_text cfg0 ch0 delivery9 digest2000 [] := by
    unfold delivered9 send_text_payload
    rw [hmlen]
    norm_num
  refine ⟨rfl, rfl, hlen2000, ?_, ?_, ?_⟩
  · rw [hpay, hmlen]
    norm_num
  · rw [hpay, hmsg, List.length_append, hslen, hh]
  · rw [hpay, hmsg, ← List.append_assoc]
    exact List.getLast?_concat _

/-- C9, amended: under `summaryOnly` with a non-negative `textMaxChars` cap
`m` exceeded by the digest, the truncated body is exactly the first `m`
characters plus one ellipsis character — `m + 1` characters ending in `…` —
but the delivered message is the chat header concatenated with that body, so
it exceeds `m + 1` by the header's length; whether a file is sent depends
only on the resolved `send_file` flag conjoined with the recipient's flag,
not on `summaryOnly`; and `send_text` enforces the 4096-character platform
cap on every payload. -/
theorem c9_truncation_and_caps :
    (∀ (ds : ChannelDeliverySettings) (digest : PyStr) (m : Int),
      ds.summary_only = true → ds.text_max_chars = some m → 0 ≤ m →
      (digest.length : Int) > m →
        deliver_short_text ds digest = digest.take m.toNat ++ pystr ("…") ∧
        (deliver_short_text ds digest).length = m.toNat + 1 ∧
        (deliver_short_text ds digest).getLast? = some '…') ∧
    (∀ (cfg : Config) (ch : Channel) (ds : ChannelDeliverySettings) (digest : PyStr),
      deliver_message_text cfg ch ds digest [] =
        chat_header ch ++ deliver_short_text ds digest) ∧
    (∀ t : PyStr, (send_text_payload t).length ≤ 4096) ∧
    (∀ (cfg : Config) (env : Env) (db : DB) (ch : Channel) (digest_id : Int)
        (text : PyStr) (f t : Int) (cs : PyStr) (r : Recipient),
      ch.recipients = [r] → optIntTruthy r.telegram_id = true →
        (deliver_digest cfg env db ch digest_id text f t cs).deliveries.map
            (fun d => d.delivery_type) =
          db.deliveries.map (fun d => d.delivery_type) ++
            ((if (resolveDelivery ch env.deliveryCache).send_text && r.send_text then
                [pystr ("text")] else []) ++
             (if (resolveDelivery ch env.deliveryCache).send_file && r.send_file then
                [pystr ("file")] else []))) := by
  refine ⟨?_, ?_, ?_, ?_⟩
  · intro ds digest m hs hc hm hlen
    have hmn : m.toNat ≤ digest.length := by omega
    have heq := short_text_truncates ds digest m hs hc hlen
    refine ⟨heq, ?_, ?_⟩
    · rw [heq]
      rw [List.length_append, List.length_take]
      have : pystr ("…") = ['…'] := rfl
      rw [this]
      simp
      omega
    · rw [heq]
      have : pystr ("…") = ['…'] := rfl
      rw [this]
      exact List.getLast?_concat _
  · intro cfg ch ds digest
    exact message_text_no_changes cfg ch ds digest
  · intro t
    unfold send_text_payload
    by_cases h : t.length > 4096
    · rw [if_pos h]
      rw [List.length_append, List.length_take]
      have : (pystr ("\n...")).length = 4 := rfl
      omega
    · rw [if_neg h]
      omega
  · intro cfg env db ch digest_id text f t cs r hrec htid
    unfold deliver_digest
    rw [hrec]
    simp only [List.foldl_cons, List.foldl_nil, htid, Bool.not_true, Bool.false_eq_true,
      if_false]
    by_cases hst : ((resolveDelivery ch env.deliveryCache).send_text && r.send_text) = true
    · by_cases hsf : ((resolveDelivery ch env.deliveryCache).send_file && r.send_file) = true
      · simp [hst, hsf, Database.save_delivery]
      · simp [hst, hsf, Database.save_delivery]
    · by_cases hsf : ((resolveDelivery ch env.deliveryCache).send_file && r.send_file) = true
      · simp [hst, hsf, Database.save_delivery]
      · simp [hst, hsf, Database.save_delivery]

/-- C9, witness: the concrete 2000-character digest under the concrete
500-cap policy yields a 501-character body ending in the ellipsis, every
payload respects the 4096 hard cap, and a single-recipient delivery under a
no-file policy records exactly one text delivery and no file delivery. -/
theorem c9_truncation_and_caps_witness :
    (deliver_short_text delivery9 digest2000).length = 501 ∧
    (send_text_payload delivered9).length ≤ 4096 ∧
    (deliver_digest cfg0 env0 DB.empty ch9 1 digest2000 0 7 []).deliveries.map
      (fun d => d.delivery_type) = [pystr ("text")] := by
  refine ⟨?_, ?_, ?_⟩
  · refine (c9_truncation_and_caps.1 delivery9 digest2000 500 rfl rfl (by norm_num) ?_).2.1
    rw [show digest2000 = List.replicate 2000 'a' from rfl, List.length_replicate]
    norm_num
  · exact c9_truncation_and_caps.2.2.1 delivered9
  · have h := c9_truncation_and_caps.2.2.2 cfg0 env0 DB.empty ch9 1 digest2000 0 7 [] r9
      rfl (by decide)
    simpa [ch9, r9, resolveDelivery] using h

/-! ## Claim C10 -/

theorem st_fold_report_state (cfg : Config) (ch : Channel) (msgs : List TgMessage)
    (acc : DB × Nat × Int) :
    ((msgs.foldl (fun acc m =>
        (save_message cfg acc.1 m ch none, acc.2.1 + 1, max acc.2.2 m.id)) acc).1.report_state) =
      acc.1.report_state := by
  induction msgs generalizing acc with
  | nil => rfl
  | cons m ms ih =>
    rw [List.foldl_cons]
    rw [ih]
    simp [save_message]

theorem st_fold_count (cfg : Config) (ch : Channel) (msgs : List TgMessage)
    (acc : DB × Nat × Int) :
    ((msgs.foldl (fun acc m =>
        (save_message cfg acc.1 m ch none, acc.2.1 + 1, max acc.2.2 m.id)) acc).2.1) =
      acc.2.1 + msgs.length := by
  induction msgs generalizing acc with
  | nil => rfl
  | cons m ms ih =>
    rw [List.foldl_cons, ih]
    simp
    omega

theorem get_last_congr (db1 db2 : DB) (pt : PyStr) (pid : Int) (u : Option Int)
    (h : db1.report_state = db2.report_state) :
    Database.get_last_msg_id db1 pt pid u = Database.get_last_msg_id db2 pt pid u := by
  unfold Database.get_last_msg_id
  rw [h]

/-- C10: the name `user_id` is assigned nowhere in
`process_channel_step_text` and is no module global, so whenever the step
ingests at least one new message it raises `NameError` while evaluating the
arguments of the cursor update, before the database call; the outer handler
reports the step as failed, the cursor is unchanged and the consolidated
document is never written (the saved message rows remain).  A run that finds
zero new messages completes normally with the nothing-new notification and
an untouched store. -/
theorem c10_step_text_name_error :
    nameResolvable step_text_assigned_locals "user_id" = false ∧
    (∀ (cfg : Config) (env : Env) (db : DB) (ch : Channel),
      env.fetchRaises = false →
      fetch_new_messages env (Database.get_last_msg_id db ch.peer_type ch.id none) ≠ [] →
        (process_channel_step_text cfg env db ch).notify = .stepFailure ∧
        (process_channel_step_text cfg env db ch).docWritten = false ∧
        Database.get_last_msg_id (process_channel_step_text cfg env db ch).db ch.peer_type
            ch.id none =
          Database.get_last_msg_id db ch.peer_type ch.id none) ∧
    (∀ (cfg : Config) (env : Env) (db : DB) (ch : Channel),
      env.fetchRaises = false →
      fetch_new_messages env (Database.get_last_msg_id db ch.peer_type ch.id none) = [] →
        process_channel_step_text cfg env db ch = ⟨db, .noMessages, false⟩) := by
  refine ⟨by decide, ?_, ?_⟩
  · intro cfg env db ch hfr hne
    have hcount := st_fold_count cfg ch
      (fetch_new_messages env (Database.get_last_msg_id db ch.peer_type ch.id none))
      (db, 0, Database.get_last_msg_id db ch.peer_type ch.id none)
    have hlen : (fetch_new_messages env
        (Database.get_last_msg_id db ch.peer_type ch.id none)).length ≠ 0 := by
      simpa [List.length_eq_zero] using hne
    have hbeq : ((fetch_new_messages env
        (Database.get_last_msg_id db ch.peer_type ch.id none)).length == 0) = false := by
      simpa using hlen
    have hrs := st_fold_report_state cfg ch
      (fetch_new_messages env (Database.get_last_msg_id db ch.peer_type ch.id none))
      (db, 0, Database.get_last_msg_id db ch.peer_type ch.id none)
    unfold process_channel_step_text
    rw [hfr]
    simp only [Bool.false_eq_true, if_false, hcount, Nat.zero_add, hbeq,
      step_text_user_id_unresolvable]
    refine ⟨by trivial, by trivial, ?_⟩
    exact get_last_congr _ _ _ _ _ hrs
  · intro cfg env db ch hfr hfe
    unfold process_channel_step_text
    simp [hfe, hfr]

/-- C10, witness: with one newly fetched message the step reports a failure
and the cursor stays at 0; with nothing fetched the step reports nothing-new
and leaves the store as it was. -/
theorem c10_step_text_name_error_witness :
    ((process_channel_step_text cfg0 c2_env DB.empty ch0).notify = .stepFailure ∧
     Database.get_last_msg_id (process_channel_step_text cfg0 c2_env DB.empty ch0).db
       (pystr ("channel")) 42 none = 0) ∧
    process_channel_step_text cfg0 env0 DB.empty ch0 = ⟨DB.empty, .noMessages, false⟩ := by
  constructor
  · have h := c10_step_text_name_error.2.1 cfg0 c2_env DB.empty ch0 rfl (by decide)
    exact ⟨h.1, h.2.2⟩
  · exact c10_step_text_name_error.2.2 cfg0 env0 DB.empty ch0 rfl rfl

end TgDigest
